import Mathlib

/-!
# Verification of the press-council pipeline core

A shallow embedding of the repository's backend modules
(`backend/openrouter.py`, `backend/config.py`, `backend/evaluation.py`)
together with theorems settling the specification claims about them.

The remote network is modelled by oracles: a single call's behaviour is a
function from the attempt number to the outcome the `httpx` layer would
produce on that attempt, and a batch of concurrent calls is a function from
the unit index to such a per-call oracle.  Python `None`-able parameters are
`Option`s, raised exceptions are `Except.error`, and Python dicts are
association lists with insertion-order/overwrite semantics (`dictSet`).
-/

namespace PressCouncil

/-- A parsed chat-completion response: `message.get('content')` and
`message.get('reasoning_details')` of the remote JSON, both possibly null. -/
structure Resp where
  content : Option String
  reasoning_details : Option String
deriving DecidableEq, Repr

/-- Outcome of one outbound HTTP attempt, as classified by the `except`
arms of `query_model` (openrouter.py lines 72-119):
a successful parsed response, an `httpx.TimeoutException`,
an `httpx.HTTPStatusError` with its status code and body text, or any other
exception (connection errors) with its type name and message. -/
inductive Attempt where
  | ok (content : Option String) (reasoning_details : Option String)
  | timeout
  | httpError (status : Nat) (body : String)
  | exn (tyName msg : String)
deriving DecidableEq, Repr

/-- `OpenRouterError` (openrouter.py lines 8-14). -/
structure OpenRouterError where
  message : String
  code : Option Nat
  is_credit_error : Bool
deriving DecidableEq, Repr

/-- What a single `query_model` call produces: a response, the soft-mode
`None`, or a raised `OpenRouterError` (hard mode). -/
inductive QueryResult where
  | ok (r : Resp)
  | none
  | raised (e : OpenRouterError)
deriving DecidableEq, Repr

/-- A role-tagged chat turn. -/
structure Message where
  role : String
  content : String
deriving DecidableEq, Repr

/-- Error message for a timeout that exhausted its retries
(openrouter.py line 79). -/
def timeoutMsg (model : String) : String :=
  "タイムアウト: " ++ model ++ "への接続がタイムアウトしました"

/-- Error message chosen from the HTTP status code
(openrouter.py lines 93-104). -/
def httpMsg (model : String) (status : Nat) : String :=
  if status = 402 then
    "クレジット不足: OpenRouterのクレジットが不足しています。https://openrouter.ai/settings/credits でクレジットを追加してください。"
  else if status = 400 then
    "無効なリクエスト: モデル " ++ model ++ " へのリクエストが無効です。"
  else if status = 401 then
    "認証エラー: APIキーが無効です。"
  else if status = 429 then
    "レート制限: リクエストが多すぎます。しばらく待ってから再試行してください。"
  else
    "APIエラー (" ++ toString status ++ "): " ++ model

/-- The retry loop of `query_model` (openrouter.py lines 51-121), iterating
over the remaining attempt numbers of `range(max_retries + 1)`.  Returns the
final outcome together with the list of back-off sleep durations performed
(in seconds, in order).  The `[]` arm is the `return None` after the loop
(line 121). -/
def queryGo (model : String) (oracle : Nat → Attempt) (raise_on_error : Bool)
    (max_retries : Nat) : List Nat → QueryResult × List Nat
  | [] => (.none, [])
  | attempt :: rest =>
    match oracle attempt with
    | .ok c r => (.ok ⟨c, r⟩, [])
    | .timeout =>
      if attempt < max_retries then
        let (res, sl) := queryGo model oracle raise_on_error max_retries rest
        (res, 2 ^ attempt :: sl)
      else if raise_on_error then
        (.raised ⟨timeoutMsg model, some 408, false⟩, [])
      else (.none, [])
    | .httpError status _ =>
      if status = 429 ∧ attempt < max_retries then
        let (res, sl) := queryGo model oracle raise_on_error max_retries rest
        (res, 2 ^ attempt :: sl)
      else if raise_on_error then
        (.raised ⟨httpMsg model status, some status, status = 402⟩, [])
      else (.none, [])
    | .exn tyName msg =>
      if attempt < max_retries then
        let (res, sl) := queryGo model oracle raise_on_error max_retries rest
        (res, 2 ^ attempt :: sl)
      else if raise_on_error then
        (.raised ⟨"接続エラー: " ++ tyName ++ ": " ++ msg, none, false⟩, [])
      else (.none, [])

/-- `query_model` (openrouter.py lines 17-121).  `messages` and `timeout`
do not influence the modelled control flow (the oracle stands for the
network); they are kept for signature fidelity. -/
def query_model (model : String) (_messages : List Message)
    (_timeout : ℚ := 120) (raise_on_error : Bool := false)
    (max_retries : Nat := 2) (oracle : Nat → Attempt) : QueryResult × List Nat :=
  queryGo model oracle raise_on_error max_retries (List.range (max_retries + 1))

/-- Soft-mode view of a call result: `raised` cannot occur when
`raise_on_error` is false, and `None` stays `none`. -/
def toSoft : QueryResult → Option Resp
  | .ok r => some r
  | .none => Option.none
  | .raised _ => Option.none

/-- Python `d[k] = v`: overwrite in place if the key exists, else append. -/
def dictSet {α β : Type} [DecidableEq α] (d : List (α × β)) (k : α) (v : β) :
    List (α × β) :=
  match d with
  | [] => [(k, v)]
  | (k', v') :: rest =>
    if k' = k then (k', v) :: rest else (k', v') :: dictSet rest k v

/-- Python dict built from a list of key/value pairs (insertion order,
later duplicates overwrite in place). -/
def dictOfList {α β : Type} [DecidableEq α] (l : List (α × β)) : List (α × β) :=
  l.foldl (fun d (kv : α × β) => dictSet d kv.1 kv.2) []

/-- Python `d.get(k)` / `d[k]` on our dict representation. -/
def dictGet? {α β : Type} [DecidableEq α] (d : List (α × β)) (k : α) : Option β :=
  match d with
  | [] => none
  | (k', v) :: rest => if k' = k then some v else dictGet? rest k

/-- `query_models_parallel` (openrouter.py lines 124-147): one independent
soft-mode `query_model` per listed model (`po i` is unit `i`'s network
oracle), gathered in order, then collected into a dict keyed by model. -/
def query_models_parallel (models : List String) (messages : List Message)
    (po : Nat → Nat → Attempt) : List (String × Option Resp) :=
  let responses := models.enum.map
    (fun (p : Nat × String) => toSoft (query_model p.2 messages 120 false 2 (po p.1)).1)
  dictOfList (models.zip responses)

/-- Whether an attempt outcome takes a `continue` branch of the retry loop
when further retries remain: timeout, connection error, or HTTP 429. -/
def transientB : Attempt → Bool
  | .timeout => true
  | .exn _ _ => true
  | .httpError status _ => status = 429
  | .ok _ _ => false

/-- The result the retry loop produces when `att` is its terminal attempt. -/
def finalResult (model : String) (raise_on_error : Bool) : Attempt → QueryResult
  | .ok c r => .ok ⟨c, r⟩
  | .timeout =>
    if raise_on_error then .raised ⟨timeoutMsg model, some 408, false⟩ else .none
  | .httpError status _ =>
    if raise_on_error then .raised ⟨httpMsg model status, some status, status = 402⟩
    else .none
  | .exn tyName msg =>
    if raise_on_error then
      .raised ⟨"接続エラー: " ++ tyName ++ ": " ++ msg, none, false⟩
    else .none

/-- Index of the retry loop's terminal attempt: the first attempt number at
which the loop does not take a `continue` branch (fuelled so it computes). -/
def firstStopGo (oracle : Nat → Attempt) (max_retries : Nat) :
    Nat → Nat → Nat
  | 0, k => k
  | fuel + 1, k =>
    if transientB (oracle k) && decide (k < max_retries) then
      firstStopGo oracle max_retries fuel (k + 1)
    else k

/-- First non-retried attempt number of a `query_model` call. -/
def firstStop (oracle : Nat → Attempt) (max_retries : Nat) : Nat :=
  firstStopGo oracle max_retries (max_retries + 1) 0

/-! ## Configuration catalog (`backend/config.py`) -/

/-- Performance tier of an LLM block (config.py line 36). -/
inductive Tier where
  | premium
  | standard
  | free
deriving DecidableEq, Repr

/-- `LLMBlock` (config.py lines 29-41). -/
structure LLMBlock where
  id : String
  name : String
  model : String
  provider : String
  tier : Tier
  description : String := ""
  cost_factor : ℚ := 1
deriving DecidableEq, Repr

/-- `LLM_BLOCKS` (config.py lines 46-178), in source order. -/
def LLM_BLOCKS : List (String × LLMBlock) :=
  [ ("gemini-flash",
      ⟨"gemini-flash", "Gemini 2.0 Flash", "google/gemini-2.0-flash-exp:free",
       "Google", .free, "高速・無料", 0⟩),
    ("gemini-flash-thinking",
      ⟨"gemini-flash-thinking", "Gemini 2.0 Flash Thinking",
       "google/gemini-2.0-flash-thinking-exp:free", "Google", .free,
       "推論強化・無料", 0⟩),
    ("llama-70b",
      ⟨"llama-70b", "Llama 3.3 70B", "meta-llama/llama-3.3-70b-instruct",
       "Meta", .free, "高性能オープン", 1/2⟩),
    ("qwen-32b",
      ⟨"qwen-32b", "Qwen 2.5 32B", "qwen/qwen-2.5-32b-instruct",
       "Alibaba", .free, "多言語対応", 3/10⟩),
    ("mistral-small",
      ⟨"mistral-small", "Mistral Small",
       "mistralai/mistral-small-24b-instruct-2501", "Mistral", .free,
       "軽量・高速", 1/5⟩),
    ("gemini-pro",
      ⟨"gemini-pro", "Gemini 1.5 Pro", "google/gemini-pro-1.5",
       "Google", .standard, "バランス型", 1⟩),
    ("claude-haiku",
      ⟨"claude-haiku", "Claude 3.5 Haiku", "anthropic/claude-3.5-haiku",
       "Anthropic", .standard, "高速・低コスト", 4/5⟩),
    ("deepseek-chat",
      ⟨"deepseek-chat", "DeepSeek V3", "deepseek/deepseek-chat",
       "DeepSeek", .standard, "コスパ最強", 3/10⟩),
    ("claude-sonnet",
      ⟨"claude-sonnet", "Claude 4 Sonnet", "anthropic/claude-sonnet-4",
       "Anthropic", .premium, "最新・高品質", 2⟩),
    ("claude-opus",
      ⟨"claude-opus", "Claude 4 Opus", "anthropic/claude-opus-4",
       "Anthropic", .premium, "最高性能", 5⟩),
    ("gpt-4o",
      ⟨"gpt-4o", "GPT-4o", "openai/gpt-4o", "OpenAI", .premium,
       "マルチモーダル", 2⟩),
    ("gpt-4-turbo",
      ⟨"gpt-4-turbo", "GPT-4 Turbo", "openai/gpt-4-turbo", "OpenAI", .premium,
       "高速GPT-4", 3/2⟩),
    ("grok-2",
      ⟨"grok-2", "Grok 2", "x-ai/grok-2-1212", "xAI", .premium,
       "独自視点", 3/2⟩),
    ("gemini-exp",
      ⟨"gemini-exp", "Gemini Exp 1206", "google/gemini-exp-1206:free",
       "Google", .premium, "実験版・最新", 0⟩) ]

/-- `JournalistPersona` (config.py lines 184-194). -/
structure JournalistPersona where
  id : String
  name : String
  media_type : String
  outlet_example : String
  focus_areas : List String
  tone : String
  description : String
  criticism_base : Nat := 3
deriving DecidableEq, Repr

/-- `JOURNALIST_PERSONAS` (config.py lines 198-249), in source order. -/
def JOURNALIST_PERSONAS : List (String × JournalistPersona) :=
  [ ("nikkei",
      ⟨"nikkei", "日経記者", "経済紙", "日本経済新聞",
       ["企業価値", "株価影響", "経営戦略", "数字の正確性"], "客観的・分析的",
       "日経新聞の企業報道部・ビジネス報道ユニット記者。企業価値と市場への影響を重視。", 4⟩),
    ("lifestyle",
      ⟨"lifestyle", "全国紙生活部", "全国紙", "朝日新聞・毎日新聞",
       ["消費者目線", "生活への影響", "わかりやすさ", "社会的意義"], "親しみやすい・共感的",
       "全国紙の生活部記者。一般読者の視点で消費者への影響を重視。", 3⟩),
    ("web",
      ⟨"web", "Web記者", "Webメディア", "ITmedia・インプレスウォッチ",
       ["技術的新規性", "IT業界トレンド", "読みやすさ", "SEO"], "カジュアル・エンゲージング",
       "ITメディア・インプレスウォッチ等のWeb記者。技術的な正確性とトレンド性を重視。", 3⟩),
    ("trade",
      ⟨"trade", "業界専門誌", "業界専門紙", "日刊工業新聞・電波新聞",
       ["技術詳細", "業界動向", "専門用語の正確性", "業界への影響"], "専門的・技術志向",
       "業界専門紙の記者。技術的な正確性と業界への影響を深掘り。", 5⟩),
    ("tv",
      ⟨"tv", "経済テレビ", "テレビ", "WBS・NHK",
       ["視聴者の関心", "映像映え", "キャッチーさ", "社会的インパクト"], "わかりやすい・インパクト重視",
       "ワールドビジネスサテライト・NHK経済番組の記者。視聴者目線でわかりやすさを重視。", 2⟩) ]

/-- `ModeConfig` (config.py lines 255-267). -/
structure ModeConfig where
  id : String
  name : String
  name_ja : String
  description : String
  default_matrix : List (String × String)
  default_writers : List String
  default_editor : String
  estimated_time_min : Nat
  estimated_cost_yen : Nat
deriving DecidableEq, Repr

/-- `MODE_CONFIGS` (config.py lines 270-325), in source order.  The `full`
matrix is the cartesian product written out by the source's comprehension. -/
def MODE_CONFIGS : List (String × ModeConfig) :=
  [ ("simple",
      { id := "simple", name := "Simple", name_ja := "シンプル",
        description := "無料モデルで素早く。初めての方におすすめ。",
        default_writers := ["gemini-flash", "llama-70b", "deepseek-chat"],
        default_matrix :=
          [("gemini-flash", "nikkei"), ("llama-70b", "lifestyle"),
           ("deepseek-chat", "web"), ("gemini-flash", "trade"),
           ("llama-70b", "tv")],
        default_editor := "gemini-flash",
        estimated_time_min := 1, estimated_cost_yen := 0 }),
    ("standard",
      { id := "standard", name := "Standard", name_ja := "おすすめ",
        description := "バランス型。複数モデルで多角的な評価。",
        default_writers := ["gemini-pro", "claude-haiku", "deepseek-chat"],
        default_matrix :=
          [("gemini-pro", "nikkei"), ("claude-haiku", "nikkei"),
           ("claude-haiku", "lifestyle"), ("deepseek-chat", "lifestyle"),
           ("gemini-pro", "web"), ("deepseek-chat", "web"),
           ("claude-haiku", "trade"), ("gemini-pro", "trade"),
           ("deepseek-chat", "tv"), ("gemini-pro", "tv")],
        default_editor := "gemini-pro",
        estimated_time_min := 2, estimated_cost_yen := 30 }),
    ("full",
      { id := "full", name := "Full", name_ja := "プロ",
        description := "最高品質。Claude/GPT含む完全分析。",
        default_writers := ["claude-sonnet", "gpt-4o", "gemini-pro", "deepseek-chat"],
        default_matrix :=
          (["claude-sonnet", "gpt-4o", "gemini-pro", "deepseek-chat"].flatMap
            (fun llm => ["nikkei", "lifestyle", "web", "trade", "tv"].map
              (fun persona => (llm, persona)))),
        default_editor := "claude-sonnet",
        estimated_time_min := 5, estimated_cost_yen := 150 }) ]

/-- `DEFAULT_MODE` (config.py line 343). -/
def DEFAULT_MODE : String := "standard"

/-- `DEFAULT_CRITICISM_LEVEL` (config.py line 344). -/
def DEFAULT_CRITICISM_LEVEL : Nat := 3

/-- `get_llm_block` (config.py lines 353-355). -/
def get_llm_block (block_id : String) : Option LLMBlock :=
  dictGet? LLM_BLOCKS block_id

/-- `get_persona` (config.py lines 358-360). -/
def get_persona (persona_id : String) : Option JournalistPersona :=
  dictGet? JOURNALIST_PERSONAS persona_id

/-- `get_mode_config` (config.py lines 363-365). -/
def get_mode_config (mode_id : String) : Option ModeConfig :=
  dictGet? MODE_CONFIGS mode_id

/-! ## Ranking extractor (`parse_ranking_from_text`, evaluation.py lines 201-230)

The source's section regex is
`FINAL RANKING[：:]?\s*\n(.*?)(?:\n\n|\Z)` with `DOTALL | IGNORECASE`,
searched leftmost-first.  Its match at a given start position decomposes
into: the header (case-insensitively), an optional colon (ASCII or
fullwidth; consuming it can never hurt, since a colon is not whitespace),
then greedily `\s*\n` — which places the capture start right after the
last newline of the maximal whitespace run — and finally the lazy capture,
which ends at the first blank line (`\n\n`) or at the end of the text. -/

/-- Python `\s` whitespace, restricted to the character classes occurring
in this system's texts (ASCII whitespace plus NBSP and the ideographic
space). -/
def isPySpace (c : Char) : Bool :=
  c = ' ' || c = '\t' || c = '\n' || c = '\r' ||
  c = '\x0b' || c = '\x0c' || c = ' ' || c = '　'

/-- Strip `pat` (given lowercase) case-insensitively from the front of `l`. -/
def stripCI : List Char → List Char → Option (List Char)
  | [], l => some l
  | _ :: _, [] => none
  | p :: ps, c :: cs => if c.toLower = p then stripCI ps cs else none

/-- The characters of `FINAL RANKING`, lowercased. -/
def headerChars : List Char :=
  ['f', 'i', 'n', 'a', 'l', ' ', 'r', 'a', 'n', 'k', 'i', 'n', 'g']

/-- Greedy `\s*\n`: the suffix right after the last newline of the maximal
whitespace run at the front of `l`, or `none` if that run has no newline. -/
def afterLastNewlineInRun : List Char → Option (List Char)
  | [] => none
  | c :: cs =>
    if isPySpace c then
      match afterLastNewlineInRun cs with
      | some r => some r
      | none => if c = '\n' then some cs else none
    else none

/-- Lazy `(.*?)(?:\n\n|\Z)`: everything before the first blank line, or the
whole remainder if there is none. -/
def takeUntilBlank : List Char → List Char
  | [] => []
  | [c] => [c]
  | c :: d :: ds =>
    if c = '\n' ∧ d = '\n' then [] else c :: takeUntilBlank (d :: ds)

/-- Greedy `[：:]?`: consume one colon if present (backtracking to the
empty alternative can never make `\s*\n` succeed, since a colon is not
whitespace). -/
def stripColon (l : List Char) : List Char :=
  match l with
  | c :: cs => if c = ':' ∨ c = '：' then cs else l
  | [] => l

/-- Try to match the whole section regex at the front of `l`; on success
return the captured ranking section. -/
def tryMatchAt (l : List Char) : Option (List Char) :=
  match stripCI headerChars l with
  | none => none
  | some afterHeader =>
    match afterLastNewlineInRun (stripColon afterHeader) with
    | none => none
    | some start => some (takeUntilBlank start)

/-- `re.search` for the section regex: leftmost start position wins. -/
def findSection : List Char → Option (List Char)
  | [] => none
  | l@(_ :: rest) =>
    match tryMatchAt l with
    | some sec => some sec
    | none => findSection rest

/-- `re.findall(r'案([A-Z])', ·)`: the captured letters of all
(non-overlapping, leftmost) label tokens, in order. -/
def extractLabels : List Char → List Char
  | [] => []
  | [_] => []
  | c :: d :: ds =>
    if c = '案' ∧ 'A' ≤ d ∧ d ≤ 'Z' then d :: extractLabels ds
    else extractLabels (d :: ds)

/-- Drop duplicate letters, keeping the first occurrence of each. -/
def dedupFirst (seen : List Char) : List Char → List Char
  | [] => []
  | c :: cs => if c ∈ seen then dedupFirst seen cs else c :: dedupFirst (c :: seen) cs

/-- Rebuild the full label string `案X` from a captured letter. -/
def labelString (c : Char) : String := String.mk ['案', c]

/-- `parse_ranking_from_text` (evaluation.py lines 201-230). -/
def parse_ranking_from_text (text : String) : List String :=
  let ranking_section :=
    match findSection text.data with
    | some sec => sec
    | none => text.data
  let labels := extractLabels ranking_section
  (dedupFirst [] labels).map labelString

/-! ## Pipeline records and aggregation (`backend/evaluation.py`) -/

/-- A stage-1 result dict (evaluation.py lines 90-95).  `content` is
`responses[model].get("content", "")`; since `query_model` always puts the
`content` key in its response dict, `.get` returns the stored value even
when that value is null, so the field is an `Option`. -/
structure Draft where
  llm_id : String
  llm_name : String
  model : String
  content : Option String
deriving DecidableEq, Repr

/-- A stage-2 evaluation dict (evaluation.py lines 188-196). -/
structure EvalRec where
  llm_id : String
  llm_name : String
  model : String
  persona_id : String
  persona_name : String
  evaluation : String
  parsed_ranking : List String
deriving DecidableEq, Repr

/-- All 1-based positions at which `label` occurs in the parsed rankings of
`evaluations`, in evaluation order (the contents of
`label_rankings[label]`, evaluation.py lines 350-356). -/
def labelPositions (evaluations : List EvalRec) (label : String) : List Nat :=
  evaluations.flatMap fun ev =>
    ev.parsed_ranking.enum.filterMap fun (p : Nat × String) =>
      if p.2 = label then some (p.1 + 1) else none

/-- Round a rational to the nearest integer, ties to even — the behaviour
of Python's `round` (the source computes over floats; the model computes
over exact rationals). -/
def roundHalfEven (q : ℚ) : ℤ :=
  let f : ℤ := Int.ediv q.num (q.den : ℤ)
  let r : ℚ := q - (f : ℚ)
  if r < 1 / 2 then f
  else if 1 / 2 < (r : ℚ) then f + 1
  else if f % 2 = 0 then f else f + 1

/-- Python `round(q, 2)`. -/
def round2 (q : ℚ) : ℚ := (roundHalfEven (q * 100) : ℚ) / 100

/-- An aggregate-ranking entry (evaluation.py lines 363-368). -/
structure AggEntry where
  label : String
  llm_id : String
  avg_rank : ℚ
  rankings_count : Nat
deriving DecidableEq, Repr

/-- The entry `calculate_aggregate_rankings` produces for one
`label_to_model` pair, or `none` when the label was never ranked
(evaluation.py lines 360-368). -/
def aggEntryFor (evaluations : List EvalRec) (label_to_model : List (String × String))
    (pair : String × String) : Option AggEntry :=
  let rankings := labelPositions evaluations pair.1
  if rankings.isEmpty then none
  else some
    { label := pair.1
      llm_id := (dictGet? label_to_model pair.1).getD ""
      avg_rank := round2 ((rankings.sum : ℚ) / (rankings.length : ℚ))
      rankings_count := rankings.length }

/-- Stable insertion of an entry into a list sorted by `avg_rank`: the new
entry goes before every existing entry whose key is not smaller. -/
def insertByAvg (x : AggEntry) : List AggEntry → List AggEntry
  | [] => [x]
  | y :: ys => if y.avg_rank < x.avg_rank then y :: insertByAvg x ys else x :: y :: ys

/-- The stable ascending sort performed by `results.sort(key=...)`
(evaluation.py line 371). -/
def stableSortByAvg : List AggEntry → List AggEntry
  | [] => []
  | x :: xs => insertByAvg x (stableSortByAvg xs)

/-- `calculate_aggregate_rankings` (evaluation.py lines 335-372).
`label_to_model` is a Python dict, represented as an association list with
distinct keys in insertion order. -/
def calculate_aggregate_rankings (evaluations : List EvalRec)
    (label_to_model : List (String × String)) : List AggEntry :=
  stableSortByAvg (label_to_model.filterMap (aggEntryFor evaluations label_to_model))

/-- `by_persona[k].append(ev)`, creating the key at the end on first use
(evaluation.py lines 387-391). -/
def dictAppend (d : List (String × List EvalRec)) (k : String) (ev : EvalRec) :
    List (String × List EvalRec) :=
  match d with
  | [] => [(k, [ev])]
  | (k', vs) :: rest =>
    if k' = k then (k', vs ++ [ev]) :: rest else (k', vs) :: dictAppend rest k ev

/-- `calculate_persona_breakdown` (evaluation.py lines 375-398). -/
def calculate_persona_breakdown (evaluations : List EvalRec)
    (label_to_model : List (String × String)) :
    List (String × List AggEntry) :=
  let by_persona := evaluations.foldl (fun d ev => dictAppend d ev.persona_id ev) []
  by_persona.map fun p => (p.1, calculate_aggregate_rankings p.2 label_to_model)

/-- Code-point lexicographic strict order on character lists — Python's
`<` on `str`. -/
def charListLt : List Char → List Char → Bool
  | _, [] => false
  | [], _ :: _ => true
  | c :: cs, d :: ds =>
    if c = d then charListLt cs ds else decide (c.toNat < d.toNat)

/-- Stable insertion into a list sorted by Python string order. -/
def insertStr (x : String) : List String → List String
  | [] => [x]
  | y :: ys => if charListLt y.data x.data then y :: insertStr x ys else x :: y :: ys

/-- Python `sorted(list(set(xs)))`: distinct elements in ascending
code-point order. -/
def sortedStrings (xs : List String) : List String :=
  (xs.eraseDups).foldr insertStr []

/-- The cross-table (evaluation.py lines 401-450): reviewer backend id →
persona id → draft label → 1-based rank position, plus the sorted distinct
header sets. -/
structure CrossTable where
  llms : List String
  personas : List String
  drafts : List String
  data : List (String × List (String × List (String × Nat)))
deriving DecidableEq, Repr

/-- `build_cross_table` (evaluation.py lines 401-450). -/
def build_cross_table (evaluations : List EvalRec)
    (label_to_model : List (String × String)) : CrossTable :=
  let data := evaluations.foldl
    (fun d ev =>
      let inner := (dictGet? d ev.llm_id).getD []
      let cell := (dictGet? inner ev.persona_id).getD []
      let cell' := ev.parsed_ranking.enum.foldl
        (fun c (p : Nat × String) => dictSet c p.2 (p.1 + 1)) cell
      dictSet d ev.llm_id (dictSet inner ev.persona_id cell'))
    []
  { llms := sortedStrings (evaluations.map (·.llm_id))
    personas := sortedStrings (evaluations.map (·.persona_id))
    drafts := sortedStrings (label_to_model.map (·.1))
    data := data }

/-! ## Stand-ins for the repository's `prompts` module

`backend/prompts.py` is imported by `backend/evaluation.py` but is not part
of the sources under `src/`; the definitions below are modelled from the
spec.  None of the claims depend on prompt contents. -/

/-- Modelled from the spec: `create_label_mapping` lives in the missing
`prompts` module.  §4.3 (Label Anonymizer): labels are assigned
deterministically, first draft → first label in a fixed ordinal scheme,
giving a Label → origin-id mapping; the `案A`, `案B`, … scheme is the one
the ranking extractor recognises, and the `key="llm_id"` argument at both
call sites selects the draft's backend id as the origin. -/
def create_label_mapping (drafts : List Draft) : List (String × String) :=
  drafts.enum.map fun p => (String.mk ['案', Char.ofNat ('A'.toNat + p.1)], p.2.llm_id)

/-- Modelled from the spec: the writer system prompt of the missing
`prompts` module (an identical writing prompt for every generator, §4.6). -/
def WRITER_SYSTEM_PROMPT : String := "writer system prompt"

/-- Modelled from the spec: `WRITER_USER_PROMPT_TEMPLATE.format(...)` of
the missing `prompts` module. -/
def writerUserPrompt (user_input : String) : String :=
  "writer user prompt: " ++ user_input

/-- Modelled from the spec: `build_reviewer_system_prompt` of the missing
`prompts` module (severity level modulates the instructed strictness,
§4.6). -/
def reviewerSystemPrompt (persona : JournalistPersona) (criticism_level : Nat) : String :=
  "reviewer system prompt: " ++ persona.id ++ " " ++ toString criticism_level

/-- Modelled from the spec: `build_reviewer_user_prompt` of the missing
`prompts` module (drafts are rendered anonymised, §4.3). -/
def reviewerUserPrompt (drafts : List Draft) (persona_id : String) : String :=
  "reviewer user prompt: " ++ persona_id ++ " " ++ toString drafts.length

/-- Modelled from the spec: the editor system prompt of the missing
`prompts` module. -/
def EDITOR_SYSTEM_PROMPT : String := "editor system prompt"

/-- Modelled from the spec: `build_editor_prompt` of the missing `prompts`
module (a synthesis prompt embedding every draft, every evaluation and the
aggregate rankings, §4.6).  The spec gives it no failure condition, so it
is total here and the source's defensive `except` around it is dead in the
model. -/
def editorPrompt (original_request : String) (drafts : List Draft)
    (evaluations : List EvalRec) (rankings : List AggEntry) : String :=
  "editor prompt: " ++ original_request ++ " " ++ toString drafts.length ++
    " " ++ toString evaluations.length ++ " " ++ toString rankings.length

/-! ## The three stages and the workflow (`backend/evaluation.py`) -/

/-- A raised Python exception. -/
inductive PyErr where
  | valueError (msg : String)
  | typeError (msg : String)
deriving DecidableEq, Repr

/-- `stage1_write_drafts` (evaluation.py lines 39-97).  `po i` is the
network oracle of the `i`-th parallel unit. -/
def stage1_write_drafts (user_input : String) (writers : Option (List String))
    (mode_id : Option String) (po : Nat → Nat → Attempt) :
    Except PyErr (List Draft) :=
  let writers1 : Option (List String) :=
    match writers with
    | some w => some w
    | none =>
      match mode_id with
      | some m => if m ≠ "" then (get_mode_config m).map (·.default_writers) else none
      | none => none
  let ws := writers1.getD ["opus", "gpt", "gemini"]
  let valid_writers := ws.filterMap get_llm_block
  let writer_models := valid_writers.map (·.model)
  if valid_writers.isEmpty then
    .error (.valueError "No valid writer models specified")
  else
    let user_prompt := writerUserPrompt user_input
    let messages : List Message :=
      [⟨"system", WRITER_SYSTEM_PROMPT⟩, ⟨"user", user_prompt⟩]
    let responses := query_models_parallel writer_models messages po
    .ok (valid_writers.filterMap fun block =>
      match dictGet? responses block.model with
      | some (some r) => some ⟨block.id, block.name, block.model, r.content⟩
      | _ => none)

/-- The synthesis-result dict of stage 3 (evaluation.py lines 303-328);
`error := false` and the `none`s stand for the keys being absent.
`content` is an `Option` because the success arm stores
`result.get("content", "")`, which is the response's possibly-null content
value (the key is always present). -/
structure SynthResult where
  llm_id : String
  llm_name : String
  model : String
  content : Option String
  error : Bool := false
  error_code : Option Nat := none
  is_credit_error : Option Bool := none
deriving DecidableEq, Repr

/-- The result-processing loop of stage 2 (evaluation.py lines 173-196),
over the enumerated valid (backend, persona) tasks.  An exception wrapped
by `gather(..., return_exceptions=True)` and a `None` result are both
skipped as absent.  For a present result,
`evaluation_text = result.get("content", "")` is the possibly-null stored
content (the key is always present); a null value then reaches
`parse_ranking_from_text(None)`, whose `re.search` raises `TypeError`,
aborting the whole stage (and run, since nothing catches it). -/
def stage2Process (drafts : List Draft) (cl : Nat) (po : Nat → Nat → Attempt) :
    List (Nat × (String × LLMBlock × String × JournalistPersona)) →
    Except PyErr (List EvalRec)
  | [] => .ok []
  | p :: rest =>
    match p.2 with
    | (llm_id, block, persona_id, persona) =>
      let messages : List Message :=
        [⟨"system", reviewerSystemPrompt persona cl⟩,
         ⟨"user", reviewerUserPrompt drafts persona_id⟩]
      match toSoft (query_model block.model messages 120 false 2 (po p.1)).1 with
      | none => stage2Process drafts cl po rest
      | some result =>
        match result.content with
        | none => .error (.typeError "expected string or bytes-like object, got 'NoneType'")
        | some evaluation_text =>
          match stage2Process drafts cl po rest with
          | .error e => .error e
          | .ok evs =>
            .ok (⟨llm_id, block.name, block.model, persona_id, persona.name,
                  evaluation_text, parse_ranking_from_text evaluation_text⟩ :: evs)

/-- `stage2_evaluate_drafts` (evaluation.py lines 104-198).  `po i` is the
network oracle of the `i`-th evaluation task.  The stage raises
(`Except.error`) when a present response carries null content, because the
source feeds that `None` into `parse_ranking_from_text`. -/
def stage2_evaluate_drafts (drafts : List Draft)
    (matrix : Option (List (String × String))) (mode_id : Option String)
    (criticism_level : Option Nat) (po : Nat → Nat → Attempt) :
    Except PyErr (List EvalRec × List (String × String)) :=
  let cl := criticism_level.getD DEFAULT_CRITICISM_LEVEL
  let matrix1 : Option (List (String × String)) :=
    match matrix with
    | some m => some m
    | none =>
      match mode_id with
      | some mid => if mid ≠ "" then (get_mode_config mid).map (·.default_matrix) else none
      | none => none
  let mx := matrix1.getD (JOURNALIST_PERSONAS.map fun p => ("gemini", p.1))
  let label_to_model := create_label_mapping drafts
  if mx.isEmpty then .ok ([], label_to_model)
  else
    let task_info := mx.filterMap fun pair =>
      match get_llm_block pair.1, get_persona pair.2 with
      | some block, some persona => some (pair.1, block, pair.2, persona)
      | _, _ => none
    match stage2Process drafts cl po task_info.enum with
    | .error e => .error e
    | .ok evaluations => .ok (evaluations, label_to_model)

/-- `stage3_synthesize` (evaluation.py lines 237-328).  `o3` is the network
oracle of the single hard-mode synthesis call. -/
def stage3_synthesize (original_request : String) (drafts : List Draft)
    (evaluations : List EvalRec) (editor : Option String)
    (mode_id : Option String) (o3 : Nat → Attempt) :
    Except PyErr SynthResult :=
  let editor1 : Option String :=
    match editor with
    | some e => some e
    | none =>
      match mode_id with
      | some mid => if mid ≠ "" then (get_mode_config mid).map (·.default_editor) else none
      | none => none
  let ed := editor1.getD "opus"
  match get_llm_block ed with
  | none => .error (.valueError ("Unknown editor LLM: " ++ ed))
  | some block =>
    let label_to_model := create_label_mapping drafts
    let aggregate_rankings := calculate_aggregate_rankings evaluations label_to_model
    let user_prompt := editorPrompt original_request drafts evaluations aggregate_rankings
    let messages : List Message :=
      [⟨"system", EDITOR_SYSTEM_PROMPT⟩, ⟨"user", user_prompt⟩]
    match (query_model block.model messages 180 true 2 o3).1 with
    | .raised e =>
      .ok { llm_id := ed, llm_name := block.name, model := block.model,
            content := some ("（" ++ e.message ++ "）"), error := true,
            error_code := e.code, is_credit_error := some e.is_credit_error }
    | .none =>
      .ok { llm_id := ed, llm_name := block.name, model := block.model,
            content := some "（編集長による最終版の生成に失敗しました。APIエラーの可能性があります。）",
            error := true }
    | .ok r =>
      .ok { llm_id := ed, llm_name := block.name, model := block.model,
            content := r.content }

/-- The `metadata` dict of the returned bundle: the degraded shape of the
zero-drafts return (evaluation.py line 525) or the full shape of a
completed run (lines 554-564). -/
inductive Metadata where
  | failed (mode : String) (error : String)
  | complete (mode : String) (criticism_level : Nat) (writers : List String)
      (matrix : List (String × String)) (editor : String)
      (label_to_model : List (String × String))
      (aggregate_rankings : List AggEntry)
      (persona_breakdown : List (String × List AggEntry))
      (cross_table : CrossTable)
deriving DecidableEq, Repr

/-- The bundle returned by `run_press_release_workflow`. -/
structure Bundle where
  stage1 : List Draft
  stage2 : List EvalRec
  stage3 : SynthResult
  metadata : Metadata
deriving DecidableEq, Repr

/-- The whole remote world of one run: per-unit network oracles for the
stage-1 fan-out, the stage-2 fan-out, and the single stage-3 call. -/
structure Oracle where
  s1 : Nat → Nat → Attempt
  s2 : Nat → Nat → Attempt
  s3 : Nat → Attempt

/-- Python `v or default` for an optional list parameter (both `None` and
an explicit empty list are falsy). -/
def pyOrList {α : Type} (v : Option (List α)) (d : List α) : List α :=
  match v with
  | some l => if l.isEmpty then d else l
  | none => d

/-- Python `v or default` for an optional string parameter. -/
def pyOrStr (v : Option String) (d : String) : String :=
  match v with
  | some s => if s = "" then d else s
  | none => d

/-- Python `v or default` for an optional integer parameter. -/
def pyOrNat (v : Option Nat) (d : Nat) : Nat :=
  match v with
  | some n => if n = 0 then d else n
  | none => d

/-- Effective writer list (evaluation.py line 497). -/
def effectiveWriters (writers : Option (List String)) (config : Option ModeConfig) :
    List String :=
  pyOrList writers
    (match config with
     | some c => c.default_writers
     | none => ["opus", "gpt", "gemini"])

/-- Effective evaluation matrix (evaluation.py line 498). -/
def effectiveMatrix (matrix : Option (List (String × String)))
    (config : Option ModeConfig) : List (String × String) :=
  pyOrList matrix
    (match config with
     | some c => c.default_matrix
     | none => [])

/-- Effective editor id (evaluation.py line 499). -/
def effectiveEditor (editor : Option String) (config : Option ModeConfig) : String :=
  pyOrStr editor
    (match config with
     | some c => c.default_editor
     | none => "opus")

/-- Effective criticism level (evaluation.py line 500); the mode
configuration is not consulted. -/
def effectiveCriticism (criticism_level : Option Nat) : Nat :=
  pyOrNat criticism_level DEFAULT_CRITICISM_LEVEL

/-- `run_press_release_workflow` (evaluation.py lines 457-565). -/
def run_press_release_workflow (user_input : String)
    (writers : Option (List String)) (matrix : Option (List (String × String)))
    (editor : Option String) (criticism_level : Option Nat)
    (mode_id : Option String) (o : Oracle) : Except PyErr Bundle :=
  let mode := mode_id.getD DEFAULT_MODE
  let config := get_mode_config mode
  let effective_writers := effectiveWriters writers config
  let effective_matrix := effectiveMatrix matrix config
  let effective_editor := effectiveEditor editor config
  let effective_criticism := effectiveCriticism criticism_level
  match stage1_write_drafts user_input (some effective_writers) (some mode) o.s1 with
  | .error e => .error e
  | .ok stage1_results =>
    if stage1_results.isEmpty then
      .ok { stage1 := [], stage2 := [],
            stage3 :=
              { llm_id := effective_editor,
                llm_name := ((get_llm_block effective_editor).map (·.name)).getD "",
                model := "", content := some "ドラフト作成に失敗しました" },
            metadata := .failed mode "No drafts generated" }
    else
      match stage2_evaluate_drafts stage1_results (some effective_matrix)
        (some mode) (some effective_criticism) o.s2 with
      | .error e => .error e
      | .ok s2 =>
        let stage2_results := s2.1
        let label_to_model := s2.2
        let aggregate_rankings := calculate_aggregate_rankings stage2_results label_to_model
        let persona_breakdown := calculate_persona_breakdown stage2_results label_to_model
        let cross_table := build_cross_table stage2_results label_to_model
        match stage3_synthesize user_input stage1_results stage2_results
          (some effective_editor) (some mode) o.s3 with
        | .error e => .error e
        | .ok stage3_result =>
          .ok { stage1 := stage1_results, stage2 := stage2_results,
                stage3 := stage3_result,
                metadata := .complete mode effective_criticism effective_writers
                  effective_matrix effective_editor label_to_model
                  aggregate_rankings persona_breakdown cross_table }

/-! ## Analysis definitions used by the theorems -/

/-- `noTokenR a b` says the adjacent character pair `(a, b)` is not a label
token `案X`; a text contains no label token iff its character list is a
`Chain'` of this relation. -/
def noTokenR (a b : Char) : Prop := ¬(a = '案' ∧ 'A' ≤ b ∧ b ≤ 'Z')

instance (a b : Char) : Decidable (noTokenR a b) :=
  inferInstanceAs (Decidable (¬(a = '案' ∧ 'A' ≤ b ∧ b ≤ 'Z')))

/-- An oracle whose every remote call succeeds. -/
def allOkOracle : Oracle :=
  ⟨fun _ _ => .ok (some "draft text") Option.none,
   fun _ _ => .ok (some "FINAL RANKING:\n案A") Option.none,
   fun _ => .ok (some "final text") Option.none⟩

/-- A parallel-batch oracle whose first unit succeeds and whose other units
time out on every attempt. -/
def firstOkOracle : Nat → Nat → Attempt :=
  fun i _ => if i = 0 then .ok (some "first response") Option.none else .timeout

/-- A single-call oracle: first attempt times out, second is rate-limited,
third succeeds. -/
def retryWitnessOracle : Nat → Attempt :=
  fun i =>
    if i = 0 then .timeout
    else if i = 1 then .httpError 429 "rate limited"
    else .ok (some "succeeded on retry") Option.none

/-- An oracle whose every remote call fails on every attempt. -/
def allFailOracle : Oracle :=
  ⟨fun _ _ => .timeout, fun _ _ => .timeout, fun _ => .timeout⟩

/-- An oracle whose generator and synthesis calls succeed but whose
evaluation calls all time out. -/
def noEvalOracle : Oracle :=
  ⟨fun _ _ => .ok (some "draft text") Option.none,
   fun _ _ => .timeout,
   fun _ => .ok (some "final text") Option.none⟩

/-- An oracle whose generator calls succeed and whose synthesis call is
rejected with HTTP 402 (credit exhausted). -/
def quotaOracle : Oracle :=
  ⟨fun _ _ => .ok (some "draft text") Option.none,
   fun _ _ => .timeout,
   fun _ => .httpError 402 "insufficient credits"⟩

/-- The catalog block of id `gemini-flash`, spelled out. -/
def gfBlock : LLMBlock :=
  ⟨"gemini-flash", "Gemini 2.0 Flash", "google/gemini-2.0-flash-exp:free",
   "Google", .free, "高速・無料", 0⟩

/-- The `OpenRouterError` raised for an HTTP 402 rejection. -/
def creditErr : OpenRouterError :=
  ⟨"クレジット不足: OpenRouterのクレジットが不足しています。https://openrouter.ai/settings/credits でクレジットを追加してください。",
   some 402, true⟩

/-- A concrete label→origin mapping for aggregation instances. -/
def aggWitnessMap : List (String × String) :=
  [("案A", "w1"), ("案B", "w2"), ("案C", "w3")]

/-- Two concrete evaluation records whose parsed rankings both place
`案C` first, `案A` second and `案B` third. -/
def aggWitnessEvals : List EvalRec :=
  [⟨"gemini-pro", "Gemini 1.5 Pro", "google/gemini-pro-1.5", "nikkei", "日経記者",
     "FINAL RANKING:\n案C, 案A, 案B", ["案C", "案A", "案B"]⟩,
   ⟨"claude-haiku", "Claude 3.5 Haiku", "anthropic/claude-3.5-haiku", "web", "Web記者",
     "FINAL RANKING:\n案C, 案A, 案B", ["案C", "案A", "案B"]⟩]

/-! ## Ranking-extractor lemmas -/

theorem extractLabels_eq_nil_iff (l : List Char) :
    extractLabels l = [] ↔ l.Chain' noTokenR := by
  induction l with
  | nil => simp [extractLabels]
  | cons c cs ih =>
    cases cs with
    | nil => simp [extractLabels]
    | cons d ds =>
      by_cases h : c = '案' ∧ 'A' ≤ d ∧ d ≤ 'Z'
      · simp [extractLabels, h, List.chain'_cons, noTokenR]
      · simp only [extractLabels, if_neg h, List.chain'_cons]
        rw [ih]
        simp [noTokenR, h]

theorem stripCI_suffix : ∀ (p l r : List Char), stripCI p l = some r → r <:+ l := by
  intro p
  induction p with
  | nil =>
    intro l r h
    simp only [stripCI, Option.some.injEq] at h
    subst h
    exact List.suffix_refl _
  | cons a ps ih =>
    intro l r h
    cases l with
    | nil => simp [stripCI] at h
    | cons c cs =>
      simp only [stripCI] at h
      split at h
      · exact (ih cs r h).trans (List.suffix_cons c cs)
      · exact absurd h (by simp)

theorem afterLastNewlineInRun_suffix :
    ∀ (l r : List Char), afterLastNewlineInRun l = some r → r <:+ l := by
  intro l
  induction l with
  | nil => intro r h; simp [afterLastNewlineInRun] at h
  | cons c cs ih =>
    intro r h
    simp only [afterLastNewlineInRun] at h
    split at h
    · cases hcs : afterLastNewlineInRun cs with
      | some r' =>
        rw [hcs] at h
        simp only [Option.some.injEq] at h
        exact h ▸ (ih r' hcs).trans (List.suffix_cons c cs)
      | none =>
        rw [hcs] at h
        by_cases hc : c = '\n'
        · rw [if_pos hc] at h
          simp only [Option.some.injEq] at h
          exact h ▸ List.suffix_cons c cs
        · rw [if_neg hc] at h
          exact absurd h (by simp)
    · exact absurd h (by simp)

theorem takeUntilBlank_isPrefixOf : ∀ l : List Char, takeUntilBlank l <+: l := by
  intro l
  induction l with
  | nil => simp [takeUntilBlank]
  | cons c cs ih =>
    cases cs with
    | nil => simp [takeUntilBlank]
    | cons d ds =>
      by_cases h : c = '\n' ∧ d = '\n'
      · simp [takeUntilBlank, h]
      · simp only [takeUntilBlank, if_neg h]
        obtain ⟨t, ht⟩ := ih
        exact ⟨t, by rw [List.cons_append, ht]⟩

theorem stripColon_suffix (l : List Char) : stripColon l <:+ l := by
  cases l with
  | nil => exact List.suffix_refl _
  | cons c cs =>
    simp only [stripColon]
    split
    · exact List.suffix_cons c cs
    · exact List.suffix_refl _

theorem tryMatchAt_isInfixOf (l sec : List Char) (h : tryMatchAt l = some sec) :
    sec <:+: l := by
  simp only [tryMatchAt] at h
  cases h1 : stripCI headerChars l with
  | none => rw [h1] at h; exact absurd h (by simp)
  | some afterHeader =>
    rw [h1] at h
    dsimp only at h
    have hah : afterHeader <:+ l := stripCI_suffix _ _ _ h1
    cases h2 : afterLastNewlineInRun (stripColon afterHeader) with
    | none => rw [h2] at h; exact absurd h (by simp)
    | some start =>
      rw [h2] at h
      simp only [Option.some.injEq] at h
      subst h
      have hst : start <:+ l :=
        ((afterLastNewlineInRun_suffix _ _ h2).trans (stripColon_suffix afterHeader)).trans hah
      exact (takeUntilBlank_isPrefixOf start).isInfix.trans hst.isInfix

theorem findSection_isInfixOf : ∀ (l sec : List Char), findSection l = some sec → sec <:+: l := by
  intro l
  induction l with
  | nil => intro sec h; simp [findSection] at h
  | cons c cs ih =>
    intro sec h
    simp only [findSection] at h
    cases ht : tryMatchAt (c :: cs) with
    | some s =>
      rw [ht] at h
      simp only [Option.some.injEq] at h
      subst h
      exact tryMatchAt_isInfixOf _ _ ht
    | none =>
      rw [ht] at h
      exact List.infix_cons (ih sec h)

theorem dedupFirst_nodup :
    ∀ (l seen : List Char), (dedupFirst seen l).Nodup ∧ ∀ c ∈ dedupFirst seen l, c ∉ seen := by
  intro l
  induction l with
  | nil => intro seen; simp [dedupFirst]
  | cons c cs ih =>
    intro seen
    by_cases h : c ∈ seen
    · simpa [dedupFirst, h] using ih seen
    · simp only [dedupFirst, if_neg h]
      obtain ⟨hnd, hmem⟩ := ih (c :: seen)
      refine ⟨List.nodup_cons.mpr ⟨fun hc => (hmem c hc) (List.mem_cons_self c seen), hnd⟩, ?_⟩
      intro d hd hds
      rcases List.mem_cons.mp hd with rfl | hd'
      · exact h hds
      · exact hmem d hd' (List.mem_cons_of_mem _ hds)

theorem labelString_injective : Function.Injective labelString := by
  intro a b h
  have hd : (labelString a).data = (labelString b).data := by rw [h]
  simpa [labelString] using hd

/-- C6: `parse_ranking_from_text` first locates the `FINAL RANKING` section
(ending at the first blank line or at the end of text) and extracts label
tokens from it; with no such section it scans the entire text; tokens are
`案` followed by one uppercase ordinal letter, duplicates are dropped
keeping the first occurrence, first-occurrence order is the rank order —
in particular a header followed by `案C, 案A, 案B` parses to exactly
`[案C, 案A, 案B]`. -/
theorem parse_ranking_spec :
    parse_ranking_from_text "FINAL RANKING:\n案C, 案A, 案B" = ["案C", "案A", "案B"] ∧
    parse_ranking_from_text
        "前置き 案B 案A\nFINAL RANKING:\n案C を推す 案A\n\n案B は除外" = ["案C", "案A"] ∧
    parse_ranking_from_text "ヘッダなし 案C 案A 案C 案B" = ["案C", "案A", "案B"] ∧
    (∀ (text : String) (sec : List Char), findSection text.data = some sec →
      parse_ranking_from_text text = (dedupFirst [] (extractLabels sec)).map labelString) ∧
    (∀ text : String, findSection text.data = none →
      parse_ranking_from_text text =
        (dedupFirst [] (extractLabels text.data)).map labelString) ∧
    (∀ text : String, (parse_ranking_from_text text).Nodup) := by
  refine ⟨by decide, by decide, by decide, ?_, ?_, ?_⟩
  · intro text sec h
    simp only [parse_ranking_from_text, h]
  · intro text h
    simp only [parse_ranking_from_text, h]
  · intro text
    exact ((dedupFirst_nodup _ []).1).map labelString_injective

/-- Witness for C6: on a concrete evaluation text the section finder
returns the ranking section, and the theorem instantiates to the parse of
that text. -/
theorem parse_ranking_spec_witness :
    findSection "FINAL RANKING:\n案B 案A\n\n案C".data = some "案B 案A".data ∧
    parse_ranking_from_text "FINAL RANKING:\n案B 案A\n\n案C" =
      (dedupFirst [] (extractLabels "案B 案A".data)).map labelString :=
  ⟨by decide, parse_ranking_spec.2.2.2.1 "FINAL RANKING:\n案B 案A\n\n案C" "案B 案A".data (by decide)⟩

/-- C7: the ranking extractor is total (it is a Lean function, hence never
raises) and returns the empty sequence whenever no label token — no
adjacent pair `案X` with `X` an uppercase letter — occurs in the input,
including on the empty string. -/
theorem parse_ranking_no_token (text : String) (h : text.data.Chain' noTokenR) :
    parse_ranking_from_text text = [] := by
  have hwhole : extractLabels text.data = [] := (extractLabels_eq_nil_iff _).mpr h
  cases hf : findSection text.data with
  | none => simp [parse_ranking_from_text, hf, hwhole, dedupFirst]
  | some sec =>
    have hsec : extractLabels sec = [] :=
      (extractLabels_eq_nil_iff _).mpr ( List.Chain'.infix h (findSection_isInfixOf _ _ hf))
    simp [parse_ranking_from_text, hf, hsec, dedupFirst]

/-! ## Retry-loop lemmas -/

theorem firstStopGo_ge (oracle : Nat → Attempt) (max_retries : Nat) :
    ∀ fuel k, k ≤ firstStopGo oracle max_retries fuel k := by
  intro fuel
  induction fuel with
  | zero => intro k; simp [firstStopGo]
  | succ f ih =>
    intro k
    simp only [firstStopGo]
    split
    · exact le_trans (Nat.le_succ k) (ih (k + 1))
    · exact le_refl k

theorem firstStopGo_le (oracle : Nat → Attempt) (max_retries : Nat) :
    ∀ fuel k, k ≤ max_retries → firstStopGo oracle max_retries fuel k ≤ max_retries := by
  intro fuel
  induction fuel with
  | zero => intro k hk; simpa [firstStopGo] using hk
  | succ f ih =>
    intro k hk
    simp only [firstStopGo]
    split
    · next hcond =>
      have hlt : k < max_retries := of_decide_eq_true (Bool.and_elim_right hcond)
      exact ih (k + 1) hlt
    · exact hk

theorem firstStopGo_transient (oracle : Nat → Attempt) (max_retries : Nat) :
    ∀ fuel k i, k ≤ i → i < firstStopGo oracle max_retries fuel k →
      transientB (oracle i) = true := by
  intro fuel
  induction fuel with
  | zero => intro k i hk hi; simp [firstStopGo] at hi; omega
  | succ f ih =>
    intro k i hk hi
    simp only [firstStopGo] at hi
    by_cases hcond : transientB (oracle k) && decide (k < max_retries)
    · rw [if_pos hcond] at hi
      rcases Nat.eq_or_lt_of_le hk with rfl | hk2
      · exact Bool.and_elim_left hcond
      · exact ih (k + 1) i hk2 hi
    · rw [if_neg hcond] at hi
      omega

theorem firstStopGo_stop (oracle : Nat → Attempt) (max_retries : Nat) :
    ∀ fuel k, max_retries < k + fuel →
      firstStopGo oracle max_retries fuel k < max_retries →
      transientB (oracle (firstStopGo oracle max_retries fuel k)) = false := by
  intro fuel
  induction fuel with
  | zero =>
    intro k hfuel hlt
    simp only [firstStopGo] at hlt
    omega
  | succ f ih =>
    intro k hfuel hlt
    simp only [firstStopGo] at hlt ⊢
    by_cases hcond : transientB (oracle k) && decide (k < max_retries)
    · rw [if_pos hcond] at hlt ⊢
      exact ih (k + 1) (by omega) hlt
    · rw [if_neg hcond] at hlt ⊢
      rcases Bool.and_eq_false_iff.mp (Bool.eq_false_iff.mpr hcond) with h | h
      · exact h
      · exact absurd (decide_eq_true hlt) (by simp [h])

theorem queryGo_eq (model : String) (oracle : Nat → Attempt) (roe : Bool)
    (max_retries : Nat) :
    ∀ fuel k, k ≤ max_retries → k + fuel = max_retries + 1 →
      queryGo model oracle roe max_retries (List.range' k fuel) =
        (finalResult model roe (oracle (firstStopGo oracle max_retries fuel k)),
         (List.range' k (firstStopGo oracle max_retries fuel k - k)).map
           (fun i => 2 ^ i)) := by
  intro fuel
  induction fuel with
  | zero => intro k hk hsum; omega
  | succ f ih =>
    intro k hk hsum
    rw [List.range'_succ]
    have hretry : ((transientB (oracle k) && decide (k < max_retries)) = true) →
        (let p := queryGo model oracle roe max_retries (List.range' (k + 1) f)
         ((p.1, 2 ^ k :: p.2) : QueryResult × List Nat)) =
          (finalResult model roe
             (oracle (firstStopGo oracle max_retries (f + 1) k)),
           (List.range' k (firstStopGo oracle max_retries (f + 1) k - k)).map
             (fun i => 2 ^ i)) := by
      intro hcond
      have hlt : k < max_retries := of_decide_eq_true (Bool.and_elim_right hcond)
      have hfs : firstStopGo oracle max_retries (f + 1) k =
          firstStopGo oracle max_retries f (k + 1) := by
        simp only [firstStopGo, if_pos hcond]
      have hge : k + 1 ≤ firstStopGo oracle max_retries f (k + 1) :=
        firstStopGo_ge oracle max_retries f (k + 1)
      rw [hfs, ih (k + 1) hlt (by omega)]
      have hsub : firstStopGo oracle max_retries f (k + 1) - k =
          (firstStopGo oracle max_retries f (k + 1) - (k + 1)) + 1 := by omega
      rw [hsub, List.range'_succ, List.map_cons]
    have hterm : ((transientB (oracle k) && decide (k < max_retries)) = false) →
        firstStopGo oracle max_retries (f + 1) k = k := by
      intro hcond
      simp [firstStopGo, hcond]
    cases hatt : oracle k with
    | ok c r =>
      have hcond : (transientB (oracle k) && decide (k < max_retries)) = false := by
        simp [hatt, transientB]
      rw [hterm hcond]
      simp [queryGo, hatt, finalResult, Nat.sub_self]
    | timeout =>
      by_cases hlt : k < max_retries
      · have hcond : (transientB (oracle k) && decide (k < max_retries)) = true := by
          simp [hatt, transientB, hlt]
        have := hretry hcond
        simp only [queryGo, hatt, if_pos hlt]
        simpa using this
      · have hcond : (transientB (oracle k) && decide (k < max_retries)) = false := by
          simp [hatt, transientB, hlt]
        rw [hterm hcond]
        simp only [queryGo, hatt, if_neg hlt, finalResult, Nat.sub_self,
          List.range'_zero, List.map_nil]
        split <;> rfl
    | httpError status body =>
      by_cases hs : status = 429 ∧ k < max_retries
      · have hcond : (transientB (oracle k) && decide (k < max_retries)) = true := by
          simp [hatt, transientB, hs.1, hs.2]
        have := hretry hcond
        simp only [queryGo, hatt, if_pos hs]
        simpa using this
      · have hcond : (transientB (oracle k) && decide (k < max_retries)) = false := by
          rcases Decidable.not_and_iff_or_not.mp hs with h | h
          · simp [hatt, transientB, h]
          · simp [hatt, transientB, h]
        rw [hterm hcond]
        simp only [queryGo, hatt, if_neg hs, finalResult, Nat.sub_self,
          List.range'_zero, List.map_nil]
        split <;> rfl
    | exn ty msg =>
      by_cases hlt : k < max_retries
      · have hcond : (transientB (oracle k) && decide (k < max_retries)) = true := by
          simp [hatt, transientB, hlt]
        have := hretry hcond
        simp only [queryGo, hatt, if_pos hlt]
        simpa using this
      · have hcond : (transientB (oracle k) && decide (k < max_retries)) = false := by
          simp [hatt, transientB, hlt]
        rw [hterm hcond]
        simp only [queryGo, hatt, if_neg hlt, finalResult, Nat.sub_self,
          List.range'_zero, List.map_nil]
        split <;> rfl

/-- C2: `query_model` makes at most `max_retries + 1` attempts; every
retried attempt was a timeout, a connection error or an HTTP 429, and each
retry slept `2 ^ attempt` seconds (1s, 2s, 4s, …); an attempt that is
neither of those (in particular HTTP 400 / 401 / 402) is terminal, so such
failures are never retried; the final outcome is classified from the
terminal attempt by `finalResult`. -/
theorem query_model_retry_policy (model : String) (messages : List Message)
    (t : ℚ) (roe : Bool) (max_retries : Nat) (oracle : Nat → Attempt) :
    firstStop oracle max_retries ≤ max_retries ∧
    (query_model model messages t roe max_retries oracle).2 =
      (List.range (firstStop oracle max_retries)).map (fun i => 2 ^ i) ∧
    (∀ i, i < firstStop oracle max_retries → transientB (oracle i) = true) ∧
    (firstStop oracle max_retries < max_retries →
      transientB (oracle (firstStop oracle max_retries)) = false) ∧
    (query_model model messages t roe max_retries oracle).1 =
      finalResult model roe (oracle (firstStop oracle max_retries)) ∧
    (query_model model messages t roe max_retries oracle).2.length + 1 ≤
      max_retries + 1 := by
  have hmain := queryGo_eq model oracle roe max_retries (max_retries + 1) 0
    (Nat.zero_le _) (by omega)
  have hq : query_model model messages t roe max_retries oracle =
      queryGo model oracle roe max_retries (List.range' 0 (max_retries + 1)) := by
    rw [query_model, List.range_eq_range']
  have hfs0 : firstStop oracle max_retries =
      firstStopGo oracle max_retries (max_retries + 1) 0 := rfl
  have hle : firstStop oracle max_retries ≤ max_retries := by
    rw [hfs0]
    exact firstStopGo_le oracle max_retries (max_retries + 1) 0 (Nat.zero_le _)
  refine ⟨hle, ?_, ?_, ?_, ?_, ?_⟩
  · rw [hq, hmain, hfs0]
    simp [List.range_eq_range']
  · intro i hi
    rw [hfs0] at hi
    exact firstStopGo_transient oracle max_retries (max_retries + 1) 0 i
      (Nat.zero_le _) hi
  · intro hlt
    rw [hfs0] at hlt ⊢
    exact firstStopGo_stop oracle max_retries (max_retries + 1) 0 (by omega) hlt
  · rw [hq, hmain, hfs0]
  · rw [hq, hmain]
    simp only [List.length_map, List.length_range']
    rw [hfs0] at hle
    omega

/-- Witness for C2: a call whose attempts go timeout → HTTP 429 → success
stops at attempt 2, slept 1s then 2s, and returns the response; the
theorem's conclusions instantiate to those concrete values. -/
theorem query_model_retry_policy_witness :
    (query_model "m" [] 120 false 2 retryWitnessOracle).2 = [1, 2] ∧
    (query_model "m" [] 120 false 2 retryWitnessOracle).1 =
      .ok ⟨some "succeeded on retry", Option.none⟩ ∧
    firstStop retryWitnessOracle 2 = 2 := by
  have h := query_model_retry_policy "m" [] 120 false 2 retryWitnessOracle
  refine ⟨h.2.1.trans (by decide), (h.2.2.2.2.1).trans (by decide), by decide⟩

/-! ## Dict lemmas and the parallel dispatcher -/

theorem dictGet?_dictSet_self {α β : Type} [DecidableEq α] :
    ∀ (d : List (α × β)) (k : α) (v : β), dictGet? (dictSet d k v) k = some v := by
  intro d
  induction d with
  | nil => intro k v; simp [dictSet, dictGet?]
  | cons p rest ih =>
    intro k v
    obtain ⟨a, b⟩ := p
    by_cases ha : a = k
    · subst ha; simp [dictSet, dictGet?]
    · simp [dictSet, dictGet?, ha, ih]

theorem dictGet?_dictSet_ne {α β : Type} [DecidableEq α] :
    ∀ (d : List (α × β)) (k k' : α) (v : β), k' ≠ k →
      dictGet? (dictSet d k v) k' = dictGet? d k' := by
  intro d
  induction d with
  | nil =>
    intro k k' v h
    simp only [dictSet, dictGet?]
    rw [if_neg (fun hh : k = k' => h hh.symm)]
  | cons p rest ih =>
    intro k k' v h
    obtain ⟨a, b⟩ := p
    by_cases ha : a = k
    · subst ha
      simp only [dictSet, if_pos rfl, dictGet?]
      rw [if_neg (fun hh : a = k' => h hh.symm), if_neg (fun hh : a = k' => h hh.symm)]
    · simp only [dictSet, if_neg ha, dictGet?]
      by_cases hak : a = k'
      · rw [if_pos hak, if_pos hak]
      · rw [if_neg hak, if_neg hak]
        exact ih k k' v h


theorem dictSet_fresh {α β : Type} [DecidableEq α] :
    ∀ (d : List (α × β)) (k : α) (v : β), (∀ p ∈ d, p.1 ≠ k) →
      dictSet d k v = d ++ [(k, v)] := by
  intro d
  induction d with
  | nil => intro k v _; simp [dictSet]
  | cons p rest ih =>
    intro k v h
    obtain ⟨a, b⟩ := p
    have ha : a ≠ k := h (a, b) (List.mem_cons_self _ _)
    simp only [dictSet, if_neg ha, List.cons_append]
    rw [ih k v (fun q hq => h q (List.mem_cons_of_mem _ hq))]

theorem dictOfList_foldl {α β : Type} [DecidableEq α] :
    ∀ (l acc : List (α × β)), (((acc ++ l).map Prod.fst).Nodup) →
      l.foldl (fun d kv => dictSet d kv.1 kv.2) acc = acc ++ l := by
  intro l
  induction l with
  | nil => intro acc _; simp
  | cons kv rest ih =>
    intro acc hnd
    obtain ⟨k0, v0⟩ := kv
    simp only [List.foldl_cons]
    have hfresh : ∀ p ∈ acc, p.1 ≠ k0 := by
      intro p hp heq
      rw [List.map_append] at hnd
      have hdisj := (List.nodup_append.mp hnd).2.2
      exact hdisj (List.mem_map_of_mem Prod.fst hp) (by simp [heq])
    rw [dictSet_fresh acc k0 v0 hfresh]
    have hnd2 : (((acc ++ [(k0, v0)]) ++ rest).map Prod.fst).Nodup := by
      simpa using hnd
    rw [ih (acc ++ [(k0, v0)]) hnd2]
    simp

theorem dictOfList_id {α β : Type} [DecidableEq α] (l : List (α × β))
    (hnd : (l.map Prod.fst).Nodup) : dictOfList l = l := by
  have := dictOfList_foldl l [] (by simpa using hnd)
  simpa [dictOfList] using this

theorem zip_enumFrom_map {α β : Type} (l : List α) (f : Nat × α → β) :
    ∀ n, l.zip ((l.enumFrom n).map f) = (l.enumFrom n).map (fun p => (p.2, f p)) := by
  induction l with
  | nil => intro n; simp
  | cons a l' ih =>
    intro n
    simp only [List.enumFrom, List.map_cons, List.zip_cons_cons, ih (n + 1)]

/-- C4 counterexample: two units targeting the same backend model collapse
to a single dict entry holding only the *last* unit's outcome — here unit 0
succeeded yet the batch result records the model as absent, so the returned
collection does not preserve the positional correspondence of the input
list when models repeat. -/
theorem query_models_parallel_counterexample :
    (query_models_parallel ["m", "m"] [] firstOkOracle).length ≠ 2 ∧
    query_models_parallel ["m", "m"] [] firstOkOracle = [("m", Option.none)] ∧
    toSoft (query_model "m" [] 120 false 2 (firstOkOracle 0)).1 =
      some ⟨some "first response", Option.none⟩ := by
  refine ⟨by decide, by decide, by decide⟩

/-- C4 amended: the dispatcher consults every unit's own call (so the batch
completes only when each unit has, and a failing unit neither cancels
siblings nor aborts the batch — it is recorded as absent); when the listed
models are pairwise distinct the returned collection pairs each model with
its own unit's result in input order; with duplicated models the result is
keyed by model, keeping one entry per distinct model that holds the last
targeting unit's outcome. -/
theorem query_models_parallel_spec :
    (∀ (models : List String) (messages : List Message) (po : Nat → Nat → Attempt),
      models.Nodup →
      query_models_parallel models messages po =
        models.enum.map (fun p =>
          (p.2, toSoft (query_model p.2 messages 120 false 2 (po p.1)).1))) ∧
    query_models_parallel ["a", "b", "c"] [] firstOkOracle =
      [("a", some ⟨some "first response", Option.none⟩),
       ("b", Option.none), ("c", Option.none)] ∧
    query_models_parallel ["m", "m"] [] firstOkOracle = [("m", Option.none)] := by
  refine ⟨?_, by decide, by decide⟩
  intro models messages po hnd
  show dictOfList (models.zip ((models.enumFrom 0).map _)) = _
  rw [zip_enumFrom_map]
  apply dictOfList_id
  have hkeys : ((models.enumFrom 0).map
      (fun p => (p.2, toSoft (query_model p.2 messages 120 false 2 (po p.1)).1))).map
        Prod.fst = models := by
    rw [List.map_map]
    exact List.enumFrom_map_snd 0 models
  rw [hkeys]
  exact hnd

/-- Witness for C4 (amended): the distinct-models clause instantiated at a
concrete three-model batch with a failing middle unit. -/
theorem query_models_parallel_spec_witness :
    (["a", "b", "c"] : List String).Nodup ∧
    query_models_parallel ["a", "b", "c"] [] firstOkOracle =
      ["a", "b", "c"].enum.map (fun p =>
        (p.2, toSoft (query_model p.2 [] 120 false 2 (firstOkOracle p.1)).1)) :=
  ⟨by decide, query_models_parallel_spec.1 ["a", "b", "c"] [] firstOkOracle (by decide)⟩

/-- Witness for C7: a malformed text with a header but no valid label token
parses to the empty sequence, and so does the empty string. -/
theorem parse_ranking_no_token_witness :
    ("FINAL RANKING:\n— 案 × (b) 案x".data.Chain' noTokenR ∧
      parse_ranking_from_text "FINAL RANKING:\n— 案 × (b) 案x" = []) ∧
    ("".data.Chain' noTokenR ∧ parse_ranking_from_text "" = []) :=
  ⟨⟨(extractLabels_eq_nil_iff _).mp (by decide),
    parse_ranking_no_token "FINAL RANKING:\n— 案 × (b) 案x"
      ((extractLabels_eq_nil_iff _).mp (by decide))⟩,
   ⟨(extractLabels_eq_nil_iff _).mp (by decide),
    parse_ranking_no_token "" ((extractLabels_eq_nil_iff _).mp (by decide))⟩⟩

/-! ## Aggregation lemmas -/

theorem insertByAvg_perm (x : AggEntry) : ∀ l, (insertByAvg x l).Perm (x :: l) := by
  intro l
  induction l with
  | nil => simp [insertByAvg]
  | cons y ys ih =>
    simp only [insertByAvg]
    split
    · exact (List.Perm.cons y ih).trans (List.Perm.swap x y ys)
    · exact List.Perm.refl _

theorem stableSortByAvg_perm : ∀ l, (stableSortByAvg l).Perm l := by
  intro l
  induction l with
  | nil => simp [stableSortByAvg]
  | cons x xs ih =>
    exact (insertByAvg_perm x (stableSortByAvg xs)).trans (List.Perm.cons x ih)

theorem insertByAvg_pairwise (x : AggEntry) :
    ∀ l, l.Pairwise (fun a b : AggEntry => a.avg_rank ≤ b.avg_rank) →
      (insertByAvg x l).Pairwise (fun a b => a.avg_rank ≤ b.avg_rank) := by
  intro l
  induction l with
  | nil => intro _; simp [insertByAvg]
  | cons y ys ih =>
    intro h
    rw [List.pairwise_cons] at h
    obtain ⟨hy, hys⟩ := h
    simp only [insertByAvg]
    split
    · next hlt =>
      rw [List.pairwise_cons]
      refine ⟨?_, ih hys⟩
      intro b hb
      have hb' : b = x ∨ b ∈ ys := by
        simpa using (insertByAvg_perm x ys).mem_iff.mp hb
      rcases hb' with rfl | hb'
      · exact le_of_lt hlt
      · exact hy b hb'
    · next hnlt =>
      rw [List.pairwise_cons]
      refine ⟨?_, List.pairwise_cons.mpr ⟨hy, hys⟩⟩
      intro b hb
      rcases List.mem_cons.mp hb with rfl | hb'
      · exact le_of_not_lt hnlt
      · exact le_trans (le_of_not_lt hnlt) (hy b hb')

theorem stableSortByAvg_pairwise :
    ∀ l, (stableSortByAvg l).Pairwise (fun a b : AggEntry => a.avg_rank ≤ b.avg_rank) := by
  intro l
  induction l with
  | nil => simp [stableSortByAvg]
  | cons x xs ih => exact insertByAvg_pairwise x (stableSortByAvg xs) ih

theorem insertByAvg_filter (q : ℚ) (x : AggEntry) :
    ∀ l, (insertByAvg x l).filter (fun e => decide (e.avg_rank = q)) =
      ((x :: l).filter (fun e => decide (e.avg_rank = q))) := by
  intro l
  induction l with
  | nil => simp [insertByAvg]
  | cons y ys ih =>
    simp only [insertByAvg]
    split
    · next hlt =>
      by_cases hx : x.avg_rank = q
      · have hy : ¬(y.avg_rank = q) := by
          intro h
          rw [h] at hlt
          rw [hx] at hlt
          exact lt_irrefl q hlt
        simp [List.filter_cons, hx, hy, ih]
      · simp [List.filter_cons, hx, ih]
    · rfl

theorem stableSortByAvg_filter (q : ℚ) :
    ∀ l, (stableSortByAvg l).filter (fun e => decide (e.avg_rank = q)) =
      l.filter (fun e => decide (e.avg_rank = q)) := by
  intro l
  induction l with
  | nil => simp [stableSortByAvg]
  | cons x xs ih =>
    rw [stableSortByAvg, insertByAvg_filter]
    simp only [List.filter_cons]
    rw [ih]

theorem dictGet?_of_mem_nodup {α β : Type} [DecidableEq α] :
    ∀ (m : List (α × β)) (k : α) (v : β), (m.map Prod.fst).Nodup →
      (k, v) ∈ m → dictGet? m k = some v := by
  intro m
  induction m with
  | nil => intro k v _ h; simp at h
  | cons p rest ih =>
    intro k v hnd hmem
    obtain ⟨a, b⟩ := p
    rw [List.map_cons, List.nodup_cons] at hnd
    rcases List.mem_cons.mp hmem with heq | hmem'
    · obtain ⟨rfl, rfl⟩ := Prod.mk.injEq .. |>.mp heq.symm
      simp [dictGet?]
    · have ha : a ≠ k := by
        intro h
        apply hnd.1
        rw [h]
        exact List.mem_map.mpr ⟨(k, v), hmem', rfl⟩
      simp only [dictGet?, if_neg ha]
      exact ih k v hnd.2 hmem'

/-- C5: `calculate_aggregate_rankings` returns exactly one entry for each
mapping label mentioned at least once in a parsed ranking (zero-mention
labels are omitted, ranking entries outside the mapping's label set are
ignored), carrying the mean of its 1-based positions rounded to two
decimals and the mention count; the result is ascending in mean rank and
ties keep the encounter order of the underlying mapping (the q-filtered
subsequences coincide with those of the unsorted mapping-order list). -/
theorem calculate_aggregate_rankings_spec (evaluations : List EvalRec)
    (label_to_model : List (String × String))
    (hnd : (label_to_model.map Prod.fst).Nodup) :
    (calculate_aggregate_rankings evaluations label_to_model).Perm
      (label_to_model.filterMap (aggEntryFor evaluations label_to_model)) ∧
    (calculate_aggregate_rankings evaluations label_to_model).Pairwise
      (fun a b => a.avg_rank ≤ b.avg_rank) ∧
    (∀ q : ℚ,
      (calculate_aggregate_rankings evaluations label_to_model).filter
          (fun e => decide (e.avg_rank = q)) =
        (label_to_model.filterMap (aggEntryFor evaluations label_to_model)).filter
          (fun e => decide (e.avg_rank = q))) ∧
    (∀ e ∈ calculate_aggregate_rankings evaluations label_to_model,
      (e.label, e.llm_id) ∈ label_to_model ∧
      labelPositions evaluations e.label ≠ [] ∧
      e.avg_rank = round2 (((labelPositions evaluations e.label).sum : ℚ) /
        ((labelPositions evaluations e.label).length : ℚ)) ∧
      e.rankings_count = (labelPositions evaluations e.label).length) ∧
    (∀ p ∈ label_to_model, labelPositions evaluations p.1 ≠ [] →
      ∃ e ∈ calculate_aggregate_rankings evaluations label_to_model, e.label = p.1) ∧
    (∀ p ∈ label_to_model, labelPositions evaluations p.1 = [] →
      ∀ e ∈ calculate_aggregate_rankings evaluations label_to_model, e.label ≠ p.1) := by
  have hperm : (calculate_aggregate_rankings evaluations label_to_model).Perm
      (label_to_model.filterMap (aggEntryFor evaluations label_to_model)) :=
    stableSortByAvg_perm _
  have hmem : ∀ e ∈ calculate_aggregate_rankings evaluations label_to_model,
      (e.label, e.llm_id) ∈ label_to_model ∧
      labelPositions evaluations e.label ≠ [] ∧
      e.avg_rank = round2 (((labelPositions evaluations e.label).sum : ℚ) /
        ((labelPositions evaluations e.label).length : ℚ)) ∧
      e.rankings_count = (labelPositions evaluations e.label).length := by
    intro e he
    have he' := hperm.mem_iff.mp he
    obtain ⟨p, hp, hsome⟩ := List.mem_filterMap.mp he'
    obtain ⟨a, b⟩ := p
    simp only [aggEntryFor] at hsome
    split at hsome
    · exact absurd hsome (by simp)
    · next hne =>
      have hne' : labelPositions evaluations a ≠ [] := by
        intro h
        rw [h] at hne
        simp at hne
      obtain rfl := Option.some.injEq .. |>.mp hsome
      refine ⟨?_, hne', rfl, rfl⟩
      have hget : dictGet? label_to_model a = some b :=
        dictGet?_of_mem_nodup label_to_model a b hnd hp
      simpa [hget] using hp
  refine ⟨hperm, stableSortByAvg_pairwise _, fun q => stableSortByAvg_filter q _,
    hmem, ?_, ?_⟩
  · intro p hp hne
    obtain ⟨a, b⟩ := p
    have hsome : aggEntryFor evaluations label_to_model (a, b) =
        some { label := a, llm_id := (dictGet? label_to_model a).getD "",
               avg_rank := round2 (((labelPositions evaluations a).sum : ℚ) /
                 ((labelPositions evaluations a).length : ℚ)),
               rankings_count := (labelPositions evaluations a).length } := by
      simp only [aggEntryFor]
      rw [if_neg (by simpa using hne)]
    refine ⟨_, hperm.mem_iff.mpr (List.mem_filterMap.mpr ⟨(a, b), hp, hsome⟩), rfl⟩
  · intro p hp hz e he heq
    have := (hmem e he).2.1
    rw [heq] at this
    exact this hz

/-- Witness for C5: on two concrete evaluations both ranking `案C` first,
the label `案C` of the concrete mapping is present in the aggregate. -/
theorem calculate_aggregate_rankings_spec_witness :
    ∃ e ∈ calculate_aggregate_rankings aggWitnessEvals aggWitnessMap, e.label = "案C" :=
  (calculate_aggregate_rankings_spec aggWitnessEvals aggWitnessMap (by decide)).2.2.2.2.1
    ("案C", "w3") (by decide) (by decide)

/-! ## Workflow lemmas -/

theorem dictOfList_values {α β : Type} [DecidableEq α] (P : β → Prop) :
    ∀ (l acc : List (α × β)), (∀ p ∈ l, P p.2) →
      (∀ k v, dictGet? acc k = some v → P v) →
      ∀ k v, dictGet? (l.foldl (fun d kv => dictSet d kv.1 kv.2) acc) k = some v → P v := by
  intro l
  induction l with
  | nil => intro acc _ hacc k v h; exact hacc k v h
  | cons kv rest ih =>
    intro acc hl hacc k v h
    simp only [List.foldl_cons] at h
    refine ih (dictSet acc kv.1 kv.2)
      (fun p hp => hl p (List.mem_cons_of_mem _ hp)) ?_ k v h
    intro k' v' h'
    by_cases hk : k' = kv.1
    · subst hk
      rw [dictGet?_dictSet_self] at h'
      obtain rfl := Option.some.injEq .. |>.mp h'
      exact hl kv (List.mem_cons_self _ _)
    · rw [dictGet?_dictSet_ne acc kv.1 k' kv.2 hk] at h'
      exact hacc k' v' h'

/-- If every parallel unit of stage 1 returns absent, the stage returns an
empty draft list (provided the writer list validated, so the stage does
not raise instead). -/
theorem stage1_empty_of_absent (user_input : String) (effW : List String)
    (mode : Option String) (po : Nat → Nat → Attempt)
    (hvalid : effW.filterMap get_llm_block ≠ [])
    (habsent : ∀ p ∈ ((effW.filterMap get_llm_block).map (·.model)).enum,
      toSoft (query_model p.2
        [⟨"system", WRITER_SYSTEM_PROMPT⟩, ⟨"user", writerUserPrompt user_input⟩]
        120 false 2 (po p.1)).1 = Option.none) :
    stage1_write_drafts user_input (some effW) mode po = .ok [] := by
  have hval : ∀ k v, dictGet? (query_models_parallel
      ((effW.filterMap get_llm_block).map (·.model))
      [⟨"system", WRITER_SYSTEM_PROMPT⟩, ⟨"user", writerUserPrompt user_input⟩]
      po) k = some v → v = Option.none := by
    intro k v h
    simp only [query_models_parallel] at h
    rw [show ((effW.filterMap get_llm_block).map (·.model)).enum =
      ((effW.filterMap get_llm_block).map (·.model)).enumFrom 0 from rfl,
      zip_enumFrom_map] at h
    refine dictOfList_values (· = Option.none) _ [] ?_ (by simp [dictGet?]) k v h
    intro p hp
    obtain ⟨q, hq, rfl⟩ := List.mem_map.mp hp
    exact habsent q hq
  have hempty : (effW.filterMap get_llm_block).isEmpty = false := by
    cases h : effW.filterMap get_llm_block with
    | nil => exact absurd h hvalid
    | cons a l => rfl
  simp only [stage1_write_drafts, Option.getD_some, hempty, Bool.false_eq_true,
    if_false]
  congr 1
  rw [List.filterMap_eq_nil_iff]
  intro block hb
  cases hget : dictGet? (query_models_parallel
      ((effW.filterMap get_llm_block).map (·.model))
      [⟨"system", WRITER_SYSTEM_PROMPT⟩, ⟨"user", writerUserPrompt user_input⟩]
      po) block.model with
  | none => simp [hget]
  | some v =>
    have := hval _ _ hget
    subst this
    simp [hget]

/-- The bundle returned by the zero-drafts degraded path. -/
def zeroDraftsBundle (editor : Option String) (mode_id : Option String) : Bundle :=
  { stage1 := [], stage2 := [],
    stage3 :=
      { llm_id := effectiveEditor editor (get_mode_config (mode_id.getD DEFAULT_MODE)),
        llm_name := ((get_llm_block (effectiveEditor editor
          (get_mode_config (mode_id.getD DEFAULT_MODE)))).map (·.name)).getD "",
        model := "", content := some "ドラフト作成に失敗しました" },
    metadata := .failed (mode_id.getD DEFAULT_MODE) "No drafts generated" }

theorem run_zero_drafts_aux (user_input : String) (writers : Option (List String))
    (matrix : Option (List (String × String))) (editor : Option String)
    (criticism_level : Option Nat) (mode_id : Option String)
    (s1 s2 : Nat → Nat → Attempt) (s3 : Nat → Attempt)
    (hvalid : (effectiveWriters writers
      (get_mode_config (mode_id.getD DEFAULT_MODE))).filterMap get_llm_block ≠ [])
    (habsent : ∀ p ∈ (((effectiveWriters writers
        (get_mode_config (mode_id.getD DEFAULT_MODE))).filterMap get_llm_block).map
          (·.model)).enum,
      toSoft (query_model p.2
        [⟨"system", WRITER_SYSTEM_PROMPT⟩, ⟨"user", writerUserPrompt user_input⟩]
        120 false 2 (s1 p.1)).1 = Option.none) :
    run_press_release_workflow user_input writers matrix editor criticism_level
      mode_id ⟨s1, s2, s3⟩ = .ok (zeroDraftsBundle editor mode_id) := by
  have h1 := stage1_empty_of_absent user_input
    (effectiveWriters writers (get_mode_config (mode_id.getD DEFAULT_MODE)))
    (some (mode_id.getD DEFAULT_MODE)) s1 hvalid habsent
  simp only [run_press_release_workflow, h1, List.isEmpty_nil, if_true]
  rfl

/-- C1: when the writer list validates but every generator call returns
absent, the workflow returns the degraded bundle — empty stage-1 and
stage-2 lists, a stage-3 record carrying the explanatory message
`ドラフト作成に失敗しました`, and `No drafts generated` metadata — and the
returned value does not depend on the stage-2 or stage-3 oracles, i.e. the
run proceeds to neither evaluation nor synthesis. -/
theorem run_zero_drafts (user_input : String) (writers : Option (List String))
    (matrix : Option (List (String × String))) (editor : Option String)
    (criticism_level : Option Nat) (mode_id : Option String) (o : Oracle)
    (hvalid : (effectiveWriters writers
      (get_mode_config (mode_id.getD DEFAULT_MODE))).filterMap get_llm_block ≠ [])
    (habsent : ∀ p ∈ (((effectiveWriters writers
        (get_mode_config (mode_id.getD DEFAULT_MODE))).filterMap get_llm_block).map
          (·.model)).enum,
      toSoft (query_model p.2
        [⟨"system", WRITER_SYSTEM_PROMPT⟩, ⟨"user", writerUserPrompt user_input⟩]
        120 false 2 (o.s1 p.1)).1 = Option.none) :
    run_press_release_workflow user_input writers matrix editor criticism_level
      mode_id o = .ok (zeroDraftsBundle editor mode_id) ∧
    (zeroDraftsBundle editor mode_id).stage1 = [] ∧
    (zeroDraftsBundle editor mode_id).stage2 = [] ∧
    (zeroDraftsBundle editor mode_id).stage3.content = some "ドラフト作成に失敗しました" ∧
    (∀ (s2' : Nat → Nat → Attempt) (s3' : Nat → Attempt),
      run_press_release_workflow user_input writers matrix editor criticism_level
        mode_id ⟨o.s1, s2', s3'⟩ =
      run_press_release_workflow user_input writers matrix editor criticism_level
        mode_id o) := by
  have hmain := run_zero_drafts_aux user_input writers matrix editor
    criticism_level mode_id o.s1 o.s2 o.s3 hvalid habsent
  refine ⟨hmain, rfl, rfl, rfl, ?_⟩
  intro s2' s3'
  exact (run_zero_drafts_aux user_input writers matrix editor criticism_level
    mode_id o.s1 s2' s3' hvalid habsent).trans hmain.symm

/-- Witness for C1: one valid writer whose calls all time out yields the
degraded bundle. -/
theorem run_zero_drafts_witness :
    run_press_release_workflow "req" (some ["gemini-flash"]) none none none none
      allFailOracle = .ok (zeroDraftsBundle none none) ∧
    (zeroDraftsBundle none none).stage3.llm_name = "Gemini 1.5 Pro" := by
  have h := run_zero_drafts "req" (some ["gemini-flash"]) none none none none
    allFailOracle (by decide) (by decide)
  exact ⟨h.1, rfl⟩

theorem run_unknown_editor_aux (user_input : String) (writers : Option (List String))
    (matrix : Option (List (String × String))) (editor : Option String)
    (criticism_level : Option Nat) (mode_id : Option String)
    (s1 s2 : Nat → Nat → Attempt) (s3 : Nat → Attempt) (drafts : List Draft)
    (s2res : List EvalRec × List (String × String))
    (h1 : stage1_write_drafts user_input
      (some (effectiveWriters writers (get_mode_config (mode_id.getD DEFAULT_MODE))))
      (some (mode_id.getD DEFAULT_MODE)) s1 = .ok drafts)
    (hne : drafts ≠ [])
    (h2 : stage2_evaluate_drafts drafts
      (some (effectiveMatrix matrix (get_mode_config (mode_id.getD DEFAULT_MODE))))
      (some (mode_id.getD DEFAULT_MODE))
      (some (effectiveCriticism criticism_level)) s2 = .ok s2res)
    (hed : get_llm_block (effectiveEditor editor
      (get_mode_config (mode_id.getD DEFAULT_MODE))) = none) :
    run_press_release_workflow user_input writers matrix editor criticism_level
      mode_id ⟨s1, s2, s3⟩ =
      .error (.valueError ("Unknown editor LLM: " ++
        effectiveEditor editor (get_mode_config (mode_id.getD DEFAULT_MODE)))) := by
  have hempty : drafts.isEmpty = false := by
    cases drafts with
    | nil => exact absurd rfl hne
    | cons a l => rfl
  simp only [run_press_release_workflow, h1, hempty, Bool.false_eq_true, if_false,
    h2, stage3_synthesize, Option.getD_some, hed]

/-- C10: whenever a run whose stage 1 produced at least one draft and
whose stage 2 completed normally resolves its editor to an id absent from
the LLM catalog — in particular the hardcoded fallback `opus`, which is
not a catalog id — `stage3_synthesize` raises
`ValueError ("Unknown editor LLM: …")` before any synthesis call (the
result does not depend on the stage-3 oracle), so the exception propagates
out of the workflow and the already-produced drafts and evaluations are
discarded instead of a degraded bundle being returned. -/
theorem run_unknown_editor (user_input : String) (writers : Option (List String))
    (matrix : Option (List (String × String))) (editor : Option String)
    (criticism_level : Option Nat) (mode_id : Option String) (o : Oracle)
    (drafts : List Draft) (s2res : List EvalRec × List (String × String))
    (h1 : stage1_write_drafts user_input
      (some (effectiveWriters writers (get_mode_config (mode_id.getD DEFAULT_MODE))))
      (some (mode_id.getD DEFAULT_MODE)) o.s1 = .ok drafts)
    (hne : drafts ≠ [])
    (h2 : stage2_evaluate_drafts drafts
      (some (effectiveMatrix matrix (get_mode_config (mode_id.getD DEFAULT_MODE))))
      (some (mode_id.getD DEFAULT_MODE))
      (some (effectiveCriticism criticism_level)) o.s2 = .ok s2res)
    (hed : get_llm_block (effectiveEditor editor
      (get_mode_config (mode_id.getD DEFAULT_MODE))) = none) :
    run_press_release_workflow user_input writers matrix editor criticism_level
      mode_id o =
      .error (.valueError ("Unknown editor LLM: " ++
        effectiveEditor editor (get_mode_config (mode_id.getD DEFAULT_MODE)))) ∧
    (∀ s3' : Nat → Attempt,
      run_press_release_workflow user_input writers matrix editor criticism_level
        mode_id ⟨o.s1, o.s2, s3'⟩ =
      run_press_release_workflow user_input writers matrix editor criticism_level
        mode_id o) ∧
    get_llm_block "opus" = none := by
  have hmain := run_unknown_editor_aux user_input writers matrix editor
    criticism_level mode_id o.s1 o.s2 o.s3 drafts s2res h1 hne h2 hed
  refine ⟨hmain, ?_, by decide⟩
  intro s3'
  exact (run_unknown_editor_aux user_input writers matrix editor criticism_level
    mode_id o.s1 o.s2 s3' drafts s2res h1 hne h2 hed).trans hmain.symm

/-- Witness for C10: an unknown mode with no explicit editor resolves the
editor to the fallback `opus`, and the run aborts with the exception even
though stage 1 succeeded and stage 2 completed (with no evaluations, its
calls being absent). -/
theorem run_unknown_editor_witness :
    run_press_release_workflow "req" (some ["gemini-flash"]) none none none
      (some "custom") noEvalOracle =
      .error (.valueError ("Unknown editor LLM: " ++
        effectiveEditor none (get_mode_config "custom"))) ∧
    effectiveEditor none (get_mode_config "custom") = "opus" := by
  have h := run_unknown_editor "req" (some ["gemini-flash"]) none none none
    (some "custom") noEvalOracle
    [⟨"gemini-flash", "Gemini 2.0 Flash", "google/gemini-2.0-flash-exp:free",
      some "draft text"⟩]
    ([], [("案A", "gemini-flash")]) rfl (by decide) rfl rfl
  exact ⟨h.1, rfl⟩

/-- The bundle returned when the synthesis call raises a typed
`OpenRouterError`: both earlier stage results (`drafts` and the stage-2
outcome `s2res`) pass through unchanged and stage 3 degrades to the error
record. -/
def synthRaisedBundle (writers : Option (List String))
    (matrix : Option (List (String × String))) (editor : Option String)
    (criticism_level : Option Nat) (mode_id : Option String)
    (s2res : List EvalRec × List (String × String)) (drafts : List Draft)
    (blk : LLMBlock) (e : OpenRouterError) : Bundle :=
  let mode := mode_id.getD DEFAULT_MODE
  let cfg := get_mode_config mode
  { stage1 := drafts, stage2 := s2res.1,
    stage3 :=
      { llm_id := effectiveEditor editor cfg, llm_name := blk.name,
        model := blk.model, content := some ("（" ++ e.message ++ "）"),
        error := true, error_code := e.code,
        is_credit_error := some e.is_credit_error },
    metadata := .complete mode (effectiveCriticism criticism_level)
      (effectiveWriters writers cfg) (effectiveMatrix matrix cfg)
      (effectiveEditor editor cfg) s2res.2
      (calculate_aggregate_rankings s2res.1 s2res.2)
      (calculate_persona_breakdown s2res.1 s2res.2)
      (build_cross_table s2res.1 s2res.2) }

theorem run_synth_raised_aux (user_input : String) (writers : Option (List String))
    (matrix : Option (List (String × String))) (editor : Option String)
    (criticism_level : Option Nat) (mode_id : Option String)
    (s1 s2 : Nat → Nat → Attempt) (s3 : Nat → Attempt) (drafts : List Draft)
    (s2res : List EvalRec × List (String × String))
    (blk : LLMBlock) (e : OpenRouterError)
    (h1 : stage1_write_drafts user_input
      (some (effectiveWriters writers (get_mode_config (mode_id.getD DEFAULT_MODE))))
      (some (mode_id.getD DEFAULT_MODE)) s1 = .ok drafts)
    (hne : drafts ≠ [])
    (h2 : stage2_evaluate_drafts drafts
      (some (effectiveMatrix matrix (get_mode_config (mode_id.getD DEFAULT_MODE))))
      (some (mode_id.getD DEFAULT_MODE))
      (some (effectiveCriticism criticism_level)) s2 = .ok s2res)
    (hblk : get_llm_block (effectiveEditor editor
      (get_mode_config (mode_id.getD DEFAULT_MODE))) = some blk)
    (h3 : (query_model blk.model [] 180 true 2 s3).1 = .raised e) :
    run_press_release_workflow user_input writers matrix editor criticism_level
      mode_id ⟨s1, s2, s3⟩ =
      .ok (synthRaisedBundle writers matrix editor criticism_level
        mode_id s2res drafts blk e) := by
  have hempty : drafts.isEmpty = false := by
    cases drafts with
    | nil => exact absurd rfl hne
    | cons a l => rfl
  have h3' : ∀ M : List Message, (query_model blk.model M 180 true 2 s3).1 = .raised e :=
    fun _ => h3
  simp only [run_press_release_workflow, h1, hempty, Bool.false_eq_true, if_false,
    h2, stage3_synthesize, Option.getD_some, hblk, h3']
  rfl

/-- C3: when the run reaches synthesis and the hard-mode synthesis call
raises a typed `OpenRouterError` (for instance quota exhaustion), the run
still completes: the bundle's SynthesisResult has `error = true`, the
quota flag propagated from the error, and a non-empty user-facing message
containing the original error message, while the stage-1 draft list and
the stage-2 evaluation list are returned unchanged. -/
theorem run_synth_raised (user_input : String) (writers : Option (List String))
    (matrix : Option (List (String × String))) (editor : Option String)
    (criticism_level : Option Nat) (mode_id : Option String) (o : Oracle)
    (drafts : List Draft) (s2res : List EvalRec × List (String × String))
    (blk : LLMBlock) (e : OpenRouterError)
    (h1 : stage1_write_drafts user_input
      (some (effectiveWriters writers (get_mode_config (mode_id.getD DEFAULT_MODE))))
      (some (mode_id.getD DEFAULT_MODE)) o.s1 = .ok drafts)
    (hne : drafts ≠ [])
    (h2 : stage2_evaluate_drafts drafts
      (some (effectiveMatrix matrix (get_mode_config (mode_id.getD DEFAULT_MODE))))
      (some (mode_id.getD DEFAULT_MODE))
      (some (effectiveCriticism criticism_level)) o.s2 = .ok s2res)
    (hblk : get_llm_block (effectiveEditor editor
      (get_mode_config (mode_id.getD DEFAULT_MODE))) = some blk)
    (h3 : (query_model blk.model [] 180 true 2 o.s3).1 = .raised e) :
    run_press_release_workflow user_input writers matrix editor criticism_level
      mode_id o =
      .ok (synthRaisedBundle writers matrix editor criticism_level
        mode_id s2res drafts blk e) ∧
    (synthRaisedBundle writers matrix editor criticism_level
      mode_id s2res drafts blk e).stage1 = drafts ∧
    (synthRaisedBundle writers matrix editor criticism_level
      mode_id s2res drafts blk e).stage2 = s2res.1 ∧
    (synthRaisedBundle writers matrix editor criticism_level
      mode_id s2res drafts blk e).stage3.error = true ∧
    (synthRaisedBundle writers matrix editor criticism_level
      mode_id s2res drafts blk e).stage3.is_credit_error = some e.is_credit_error ∧
    (synthRaisedBundle writers matrix editor criticism_level
      mode_id s2res drafts blk e).stage3.content = some ("（" ++ e.message ++ "）") ∧
    e.message.data <:+: ("（" ++ e.message ++ "）").data ∧
    ("（" ++ e.message ++ "）") ≠ "" := by
  have hdata : ("（" ++ e.message ++ "）").data =
      '（' :: (e.message.data ++ ['）']) := by
    rw [String.data_append, String.data_append]
    rfl
  refine ⟨run_synth_raised_aux user_input writers matrix editor criticism_level
      mode_id o.s1 o.s2 o.s3 drafts s2res blk e h1 hne h2 hblk h3,
    rfl, rfl, rfl, rfl, rfl, ⟨['（'], ['）'], hdata.symm⟩, ?_⟩
  intro h
  have := congrArg String.data h
  rw [hdata] at this
  exact List.noConfusion this

/-- Witness for C3: a concrete run whose synthesis call is rejected with
HTTP 402 completes with the degraded quota-flagged synthesis record while
the draft list survives intact. -/
theorem run_synth_raised_witness :
    ∃ b : Bundle,
      run_press_release_workflow "req" (some ["gemini-flash"])
        (some [("gemini-flash", "nikkei")]) (some "gemini-flash") none none
        quotaOracle = .ok b ∧
      b.stage3.error = true ∧ b.stage3.is_credit_error = some true ∧
      b.stage3.content ≠ some "" ∧
      b.stage1 = [⟨"gemini-flash", "Gemini 2.0 Flash",
        "google/gemini-2.0-flash-exp:free", some "draft text"⟩] ∧
      b.stage2 = [] := by
  have h := run_synth_raised "req" (some ["gemini-flash"])
    (some [("gemini-flash", "nikkei")]) (some "gemini-flash") none none
    quotaOracle
    [⟨"gemini-flash", "Gemini 2.0 Flash", "google/gemini-2.0-flash-exp:free",
      some "draft text"⟩]
    ([], [("案A", "gemini-flash")])
    gfBlock creditErr rfl (by decide) rfl rfl rfl
  exact ⟨_, h.1, rfl, rfl,
    fun hc => h.2.2.2.2.2.2.2 (Option.some.injEq .. |>.mp hc), rfl, rfl⟩

/-- C9 counterexample: an *absent* mode does not resolve the writer list
to the hardcoded fallback `["opus", "gpt", "gemini"]` — it falls back to
`DEFAULT_MODE = "standard"`, whose default writers are valid catalog ids,
and such a run completes normally instead of raising. -/
theorem run_absent_mode_counterexample :
    effectiveWriters none (get_mode_config DEFAULT_MODE) =
      ["gemini-pro", "claude-haiku", "deepseek-chat"] ∧
    effectiveWriters none (get_mode_config DEFAULT_MODE) ≠ ["opus", "gpt", "gemini"] ∧
    (∃ b : Bundle,
      run_press_release_workflow "req" none none none none none noEvalOracle =
        .ok b) :=
  ⟨by decide, by decide, ⟨_, rfl⟩⟩

/-- C9 amended: whenever the resolved writer list contains no catalog id —
in particular when an *unknown* mode with no explicit writers resolves to
the hardcoded fallback `["opus", "gpt", "gemini"]`, none of which are
catalog ids — `stage1_write_drafts` raises
`ValueError ("No valid writer models specified")` and the exception
propagates out of the workflow instead of a degraded bundle being
returned.  (An absent mode instead resolves to the `standard` preset.) -/
theorem run_no_valid_writers (user_input : String) (writers : Option (List String))
    (matrix : Option (List (String × String))) (editor : Option String)
    (criticism_level : Option Nat) (mode_id : Option String) (o : Oracle)
    (hnone : (effectiveWriters writers
      (get_mode_config (mode_id.getD DEFAULT_MODE))).filterMap get_llm_block = []) :
    run_press_release_workflow user_input writers matrix editor criticism_level
      mode_id o = .error (.valueError "No valid writer models specified") ∧
    ["opus", "gpt", "gemini"].filterMap get_llm_block = [] ∧
    (∀ m : String, get_mode_config m = none →
      effectiveWriters none (get_mode_config m) = ["opus", "gpt", "gemini"]) := by
  refine ⟨?_, by decide, ?_⟩
  · have hisempty : ((effectiveWriters writers
        (get_mode_config (mode_id.getD DEFAULT_MODE))).filterMap
          get_llm_block).isEmpty = true := by
      rw [hnone]
      rfl
    simp only [run_press_release_workflow, stage1_write_drafts, Option.getD_some,
      hisempty, if_true]
  · intro m hm
    rw [hm]
    rfl

/-- Witness for C9 (amended): an unknown mode with no explicit writers
aborts the run with the propagated `ValueError`. -/
theorem run_no_valid_writers_witness :
    run_press_release_workflow "req" none none none none (some "custom")
      allFailOracle = .error (.valueError "No valid writer models specified") :=
  (run_no_valid_writers "req" none none none none (some "custom") allFailOracle
    (by decide)).1

/-- C8 counterexample: an explicitly supplied but falsy parameter is *not*
used as the effective value — an explicit empty matrix under the
`standard` preset yields the preset's ten-pair matrix, an explicit empty
editor id yields the preset editor, and an explicit severity 0 yields the
global default — contradicting "explicit caller-supplied value if
given". -/
theorem resolution_falsy_counterexample :
    effectiveMatrix (some []) (get_mode_config "standard") =
      [("gemini-pro", "nikkei"), ("claude-haiku", "nikkei"),
       ("claude-haiku", "lifestyle"), ("deepseek-chat", "lifestyle"),
       ("gemini-pro", "web"), ("deepseek-chat", "web"),
       ("claude-haiku", "trade"), ("gemini-pro", "trade"),
       ("deepseek-chat", "tv"), ("gemini-pro", "tv")] ∧
    effectiveMatrix (some []) (get_mode_config "standard") ≠ [] ∧
    effectiveEditor (some "") (get_mode_config "standard") = "gemini-pro" ∧
    effectiveCriticism (some 0) = DEFAULT_CRITICISM_LEVEL :=
  ⟨by decide, by decide, by decide, by decide⟩

/-- C8 amended: each of the four run parameters resolves independently as
explicit *truthy* caller-supplied value, else the named preset's default,
else the hardcoded fallback constant; a falsy supplied value (empty list,
empty string, zero) is treated as if the parameter were not given; an
unknown preset name behaves exactly as no preset; and the severity level
never consults the preset (its chain is explicit value, else the global
default constant). -/
theorem resolution_spec :
    (∀ (w : List String) (cfg : Option ModeConfig), w ≠ [] →
      effectiveWriters (some w) cfg = w) ∧
    (∀ cfg, effectiveWriters (some []) cfg = effectiveWriters none cfg) ∧
    (∀ c, effectiveWriters none (some c) = c.default_writers) ∧
    effectiveWriters none none = ["opus", "gpt", "gemini"] ∧
    (∀ (m : List (String × String)) (cfg : Option ModeConfig), m ≠ [] →
      effectiveMatrix (some m) cfg = m) ∧
    (∀ cfg, effectiveMatrix (some []) cfg = effectiveMatrix none cfg) ∧
    (∀ c, effectiveMatrix none (some c) = c.default_matrix) ∧
    effectiveMatrix none none = [] ∧
    (∀ (s : String) (cfg : Option ModeConfig), s ≠ "" →
      effectiveEditor (some s) cfg = s) ∧
    (∀ cfg, effectiveEditor (some "") cfg = effectiveEditor none cfg) ∧
    (∀ c, effectiveEditor none (some c) = c.default_editor) ∧
    effectiveEditor none none = "opus" ∧
    (∀ n : Nat, n ≠ 0 → effectiveCriticism (some n) = n) ∧
    effectiveCriticism (some 0) = effectiveCriticism none ∧
    effectiveCriticism none = DEFAULT_CRITICISM_LEVEL ∧
    (∀ m : String, get_mode_config m = none →
      (∀ w, effectiveWriters w (get_mode_config m) = effectiveWriters w none) ∧
      (∀ mx, effectiveMatrix mx (get_mode_config m) = effectiveMatrix mx none) ∧
      (∀ ed, effectiveEditor ed (get_mode_config m) = effectiveEditor ed none)) := by
  refine ⟨?_, fun cfg => rfl, fun c => rfl, rfl, ?_, fun cfg => rfl, fun c => rfl,
    rfl, ?_, fun cfg => rfl, fun c => rfl, rfl, ?_, rfl, rfl, ?_⟩
  · intro w cfg hw
    have hw' : w.isEmpty = false := by
      cases w with
      | nil => exact absurd rfl hw
      | cons a l => rfl
    simp [effectiveWriters, pyOrList, hw']
  · intro m cfg hm
    have hm' : m.isEmpty = false := by
      cases m with
      | nil => exact absurd rfl hm
      | cons a l => rfl
    simp [effectiveMatrix, pyOrList, hm']
  · intro s cfg hs
    simp [effectiveEditor, pyOrStr, hs]
  · intro n hn
    simp [effectiveCriticism, pyOrNat, hn]
  · intro m hm
    rw [hm]
    exact ⟨fun w => rfl, fun mx => rfl, fun ed => rfl⟩

/-- Witness for C8 (amended): the truthy-explicit clauses instantiated at
concrete parameters. -/
theorem resolution_spec_witness :
    effectiveWriters (some ["claude-opus"]) (get_mode_config "simple") =
      ["claude-opus"] ∧
    effectiveMatrix (some [("gpt-4o", "tv")]) (get_mode_config "full") =
      [("gpt-4o", "tv")] ∧
    effectiveEditor (some "grok-2") (get_mode_config "simple") = "grok-2" ∧
    effectiveCriticism (some 5) = 5 :=
  ⟨resolution_spec.1 ["claude-opus"] (get_mode_config "simple") (by decide),
   resolution_spec.2.2.2.2.1 [("gpt-4o", "tv")] (get_mode_config "full") (by decide),
   resolution_spec.2.2.2.2.2.2.2.2.1 "grok-2" (get_mode_config "simple") (by decide),
   resolution_spec.2.2.2.2.2.2.2.2.2.2.2.2.1 5 (by decide)⟩

end PressCouncil
